import Mathlib

/-!
# Syscall interpretation layer of mkcheck-sbuild (`syscall.cpp`)

A shallow embedding of the handlers of `src/mkcheck-sbuild/syscall.cpp`, of the
handler table `kHandlers` and of the dispatcher `Handle`.

The handlers are translated from the source.  The classes they call into
(`Process`, `Trace`) and the tracer helpers (`ReadString`, `ReadBuffer`) live in
`proc.h`, `trace.h` and `util.h`; they are modelled from the specification and
every such definition says so in its doc comment.

Machine integers: the argument registers `args[i]` are `uint64_t` (a `Nat`), the
return value is a signed 64-bit value (an `Int`), and every place where the
source stores one of them in a C `int` is an explicit `toInt32`.
-/

namespace Mkcheck

/-! ## Machine integers and ABI constants -/

/-- Conversion to a C `int`: the value modulo `2^32`, read as two's complement. -/
def toInt32 (x : Int) : Int := (x + 2147483648) % 4294967296 - 2147483648

/-- Conversion of a `uint64_t` register to a C `int`. -/
def intOf (n : Nat) : Int := toInt32 (Int.ofNat n)

/-- Truth value of `x & mask` for a C `int` `x` and a non-negative constant `mask`:
the bits of `x` are those of its residue modulo `2^32`. -/
def intTest (x : Int) (mask : Nat) : Bool := (Int.toNat (x % 4294967296)) &&& mask != 0

/-- Truth value of `x & mask` for a `uint64_t` `x`. -/
def u64Test (x : Nat) (mask : Nat) : Bool := (x % 18446744073709551616) &&& mask != 0

/-- Linux `O_CLOEXEC` (octal 02000000). -/
def O_CLOEXEC : Nat := 524288
/-- Linux `EFD_CLOEXEC` (same bit as `O_CLOEXEC`). -/
def EFD_CLOEXEC : Nat := 524288
/-- Linux `FD_CLOEXEC`. -/
def FD_CLOEXEC : Nat := 1
/-- Linux `MAP_ANON` (0x20). -/
def MAP_ANON : Int := 32
/-- Linux `MAP_SHARED`. -/
def MAP_SHARED : Nat := 1
/-- Linux `PROT_WRITE`. -/
def PROT_WRITE : Nat := 2
/-- Linux `AT_FDCWD`. -/
def AT_FDCWD : Int := -100

/-- Linux x86-64 `fcntl` command `F_DUPFD`. -/
def F_DUPFD : Int := 0
/-- Linux x86-64 `fcntl` command `F_GETFD`. -/
def F_GETFD : Int := 1
/-- Linux x86-64 `fcntl` command `F_SETFD`. -/
def F_SETFD : Int := 2
/-- Linux x86-64 `fcntl` command `F_GETFL`. -/
def F_GETFL : Int := 3
/-- Linux x86-64 `fcntl` command `F_SETFL`. -/
def F_SETFL : Int := 4
/-- Linux x86-64 `fcntl` command `F_GETLK`. -/
def F_GETLK : Int := 5
/-- Linux x86-64 `fcntl` command `F_SETLK`. -/
def F_SETLK : Int := 6
/-- Linux x86-64 `fcntl` command `F_SETLKW`. -/
def F_SETLKW : Int := 7
/-- Linux x86-64 `fcntl` command `F_OFD_GETLK`. -/
def F_OFD_GETLK : Int := 36
/-- Linux x86-64 `fcntl` command `F_OFD_SETLK`. -/
def F_OFD_SETLK : Int := 37
/-- Linux x86-64 `fcntl` command `F_OFD_SETLKW`. -/
def F_OFD_SETLKW : Int := 38
/-- Linux x86-64 `fcntl` command `F_DUPFD_CLOEXEC` (`F_LINUX_SPECIFIC_BASE + 6`). -/
def F_DUPFD_CLOEXEC : Int := 1030

/-! ## Paths

`fs::path` values are strings.  `parent_path`, `filename` and `operator/` are the
lexical operations of the filesystem library behind `fs::path`
(Boost.Filesystem conventions). -/

/-- A path is absolute when it starts with the separator. -/
def isAbsolute (path : String) : Bool := path.data.head? == some '/'

/-- Modelled from the spec: the splitting on `/` of `Process::Normalise`
(spec 4.1). -/
def splitSlash : List Char → List (List Char)
  | [] => [[]]
  | c :: cs =>
    if c = '/' then [] :: splitSlash cs
    else
      match splitSlash cs with
      | [] => [[c]]
      | w :: ws => (c :: w) :: ws

/-- Modelled from the spec: the `/`-separated segments of a path string, empty
segments included (spec 4.1). -/
def segments (path : String) : List String := (splitSlash path.data).map String.mk

/-- Modelled from the spec: one step of the canonicalisation of
`Process::Normalise` (spec 4.1): empty and `.` segments are discarded, `..` pops
the stack (never past the root), every other segment is pushed. -/
def canonStep (stack : List String) (seg : String) : List String :=
  if seg = "" ∨ seg = "." then stack
  else if seg = ".." then stack.dropLast
  else stack ++ [seg]

/-- Modelled from the spec: the canonical component stack of a list of segments
(spec 4.1). -/
def canon (segs : List String) : List String := segs.foldl canonStep []

/-- Modelled from the spec: a component stack as a `/`-rooted path, the empty
stack being the root (spec 4.1: the result is absolute, minimal and
`/`-rooted). -/
def render (comps : List String) : String :=
  if comps = [] then "/" else comps.foldl (fun acc c => acc ++ "/" ++ c) ""

/-- Modelled from the spec: `Process::Normalise(path, base)` of `proc.cpp`, which
`syscall.cpp` only calls (spec 4.1): an absolute `path` is taken
verbatim, a relative one is prefixed with `base`; the result is split on `/`,
empty and `.` components are dropped and `..` pops the stack, never past the
root.  No symlink is followed and the filesystem is not consulted. -/
def normalize (path base : String) : String :=
  render (canon (segments (if isAbsolute path then path else base ++ "/" ++ path)))

/-- Lexical `fs::path::parent_path`: the path without its last element and without
the separators in front of that element; the parent of `/x` is `/`, and a path
without a separator, or the root itself, has the empty parent. -/
def parent_path (path : String) : String :=
  let upto := path.data.reverse.dropWhile (fun c => c != '/')
  let stripped := upto.dropWhile (fun c => c == '/')
  if upto = [] then ""
  else if stripped = [] then (if path.data.all (fun c => c == '/') then "" else "/")
  else String.mk stripped.reverse

/-- Lexical `fs::path::filename`: the last element of the path; it is `/` for the
root and `.` for a path that ends in a separator. -/
def filename (path : String) : String :=
  if path.data = [] then ""
  else if path.data.all (fun c => c == '/') then "/"
  else
    let last := (path.data.reverse.takeWhile (fun c => c != '/')).reverse
    if last = [] then "." else String.mk last

/-- Lexical `fs::path::operator/`: an empty right operand leaves the left one
unchanged; a separator is inserted unless the left operand is empty or ends in
one, or the right operand starts with one. -/
def pathAppend (lhs rhs : String) : String :=
  if rhs = "" then lhs
  else if isAbsolute rhs then lhs ++ rhs
  else if lhs = "" ∨ lhs.data.getLast? = some '/' then lhs ++ rhs
  else lhs ++ "/" ++ rhs

/-! ## Process state (`proc.h`) -/

/-- Modelled from the spec: one entry of the fd-table of `class Process`
(spec section 3): the target path and the close-on-exec flag. -/
structure FdEntry where
  target : String
  closeOnExec : Bool
deriving DecidableEq, Repr

/-- Modelled from the spec: the state of `class Process` (`proc.h`, which
`syscall.cpp` only includes), spec section 3: uid, executable image, cwd, the fd-table
as a mapping from integer fd to fd-entry, the three effect sets (kept as
duplicate-free lists in insertion order) and the rename, link and removal
sequences. -/
structure Process where
  uid : Nat
  image : Nat
  cwd : String
  fdTable : Int → Option FdEntry
  inputs : List String
  outputs : List String
  touched : List String
  renames : List (String × String)
  links : List (String × String)
  removals : List String

/-- Result of running a handler or a raising `Process` operation: the exception
message when one was thrown, and the process state at that point. -/
structure Outcome where
  raised : Option String
  proc : Process

/-- Normal completion. -/
def Outcome.ok (p : Process) : Outcome := ⟨none, p⟩

/-- Completion by a thrown exception with message `msg`. -/
def Outcome.throw (msg : String) (p : Process) : Outcome := ⟨some msg, p⟩

/-- Modelled from the spec: the parts of the collaborators of `syscall.cpp` that
the specification leaves to the environment.  `ReadString` and `ReadBuffer` are
the tracer facade of `util.h` (spec section 6): a failed string read yields the
empty string, a failed read of the two pipe descriptors yields `none`.
`pipeTarget` is the synthetic target shared by the two halves of a pipe.
`ignoreMissingFd` and `skipsTarget` are the policy of the fd forms of
`AddInput`, `AddOutput` and `AddTouched` (spec 4.2, left to the implementation):
whether a missing fd is ignored or is the error of `GetFd`, and which resolved
targets (synthetic `/proc/` sentinels) are not recorded. -/
structure Env where
  ReadString : Int → Nat → String
  ReadBuffer : Int → Nat → Option (Int × Int)
  pipeTarget : String
  ignoreMissingFd : Bool
  skipsTarget : String → Bool

/-- Modelled from the spec: insertion into an effect set of `class Process`
(spec section 3: sets deduplicate). -/
def addPath (set : List String) (path : String) : List String :=
  if path ∈ set then set else set ++ [path]

/-- Update of one slot of the fd-table. -/
def setSlot (table : Int → Option FdEntry) (fd : Int) (slot : Option FdEntry) :
    Int → Option FdEntry :=
  fun k => if k = fd then slot else table k

/-- Modelled from the spec: message of the error of `Process::GetFd` for a
descriptor that is not in the fd-table (spec 4.2 fixes no text). -/
def unknownFd (fd : Int) : String := "Unknown file descriptor: " ++ toString fd

/-- Modelled from the spec: `Process::MapFd` (spec 4.2): insert or overwrite the
entry of `fd` with `target` and `close_on_exec = false`. -/
def Process.MapFd (p : Process) (fd : Int) (target : String) : Process :=
  { p with fdTable := setSlot p.fdTable fd (some ⟨target, false⟩) }

/-- Modelled from the spec: `Process::SetCloseExec` (spec 4.2): set the flag of
the entry of `fd`; no-op if `fd` is unknown. -/
def Process.SetCloseExec (p : Process) (fd : Int) (flag : Bool) : Process :=
  match p.fdTable fd with
  | none => p
  | some e => { p with fdTable := setSlot p.fdTable fd (some ⟨e.target, flag⟩) }

/-- Modelled from the spec: `Process::DupFd` (spec 4.2 and the boundary behaviour
of spec section 8): copy the entry of `src` to slot `dst`, overwriting it, with
`close_on_exec` of the new slot reset to false; `DupFd(a, a)` creates no new slot
and is a no-op on `close_on_exec`.  The spec gives the operation no failure
mode: with `src` unknown nothing is copied. -/
def Process.DupFd (p : Process) (src dst : Int) : Process :=
  if src = dst then p
  else
    match p.fdTable src with
    | none => p
    | some e => { p with fdTable := setSlot p.fdTable dst (some ⟨e.target, false⟩) }

/-- Modelled from the spec: `Process::CloseFd` (spec 4.2): remove the entry of
`fd`; no-op if unknown. -/
def Process.CloseFd (p : Process) (fd : Int) : Process :=
  match p.fdTable fd with
  | none => p
  | some _ => { p with fdTable := setSlot p.fdTable fd none }

/-- Modelled from the spec: `Process::Pipe` (spec 4.2): install two entries bound
to the synthetic pipe target, each as `MapFd` does. -/
def Process.Pipe (env : Env) (p : Process) (rfd wfd : Int) : Process :=
  (p.MapFd rfd env.pipeTarget).MapFd wfd env.pipeTarget

/-- Modelled from the spec: `Process::GetFd` (spec 4.2): the target of `fd`, an
error if `fd` is absent. -/
def Process.GetFd (p : Process) (fd : Int) : Except String String :=
  match p.fdTable fd with
  | none => .error (unknownFd fd)
  | some e => .ok e.target

/-- Modelled from the spec: `Process::SetCwd` (spec 4.2): replace the cwd. -/
def Process.SetCwd (p : Process) (path : String) : Process := { p with cwd := path }

/-- Modelled from the spec: path form of `Process::AddInput` (spec 4.2). -/
def Process.AddInput (p : Process) (path : String) : Process :=
  { p with inputs := addPath p.inputs path }

/-- Modelled from the spec: path form of `Process::AddOutput` (spec 4.2). -/
def Process.AddOutput (p : Process) (path : String) : Process :=
  { p with outputs := addPath p.outputs path }

/-- Modelled from the spec: path form of `Process::AddTouched` (spec 4.2). -/
def Process.AddTouched (p : Process) (path : String) : Process :=
  { p with touched := addPath p.touched path }

/-- What the fd form of an effect operation does with a descriptor. -/
inductive FdTarget where
  | record (path : String)
  | skip
  | fail (msg : String)
deriving DecidableEq, Repr

/-- Modelled from the spec: resolution of the fd argument of `AddInput`,
`AddOutput` and `AddTouched` (spec 4.2): the fd is resolved through the
fd-table; a missing entry is ignored or is the error of `GetFd`, and a target the
policy skips is ignored. -/
def Process.effectTarget (env : Env) (p : Process) (fd : Int) : FdTarget :=
  match p.fdTable fd with
  | none => if env.ignoreMissingFd then .skip else .fail (unknownFd fd)
  | some e => if env.skipsTarget e.target then .skip else .record e.target

/-- Modelled from the spec: fd form of `Process::AddInput` (spec 4.2). -/
def Process.AddInputFd (env : Env) (p : Process) (fd : Int) : Outcome :=
  match p.effectTarget env fd with
  | .record path => .ok (p.AddInput path)
  | .skip => .ok p
  | .fail msg => .throw msg p

/-- Modelled from the spec: fd form of `Process::AddOutput` (spec 4.2). -/
def Process.AddOutputFd (env : Env) (p : Process) (fd : Int) : Outcome :=
  match p.effectTarget env fd with
  | .record path => .ok (p.AddOutput path)
  | .skip => .ok p
  | .fail msg => .throw msg p

/-- Modelled from the spec: fd form of `Process::AddTouched` (spec 4.2). -/
def Process.AddTouchedFd (env : Env) (p : Process) (fd : Int) : Outcome :=
  match p.effectTarget env fd with
  | .record path => .ok (p.AddTouched path)
  | .skip => .ok p
  | .fail msg => .throw msg p

/-- Modelled from the spec: `Process::Rename` (spec 4.2): append to the rename
sequence; the source is an input and the destination an output. -/
def Process.Rename (p : Process) (src dst : String) : Process :=
  { p with renames := p.renames ++ [(src, dst)],
           inputs := addPath p.inputs src,
           outputs := addPath p.outputs dst }

/-- Modelled from the spec: `Process::Link` (spec 4.2): append to the link
sequence; the source is touched and the destination an output. -/
def Process.Link (p : Process) (src dst : String) : Process :=
  { p with links := p.links ++ [(src, dst)],
           touched := addPath p.touched src,
           outputs := addPath p.outputs dst }

/-- Modelled from the spec: `Process::Remove` (spec 4.2): append to the removal
sequence; the path is an output. -/
def Process.Remove (p : Process) (path : String) : Process :=
  { p with removals := p.removals ++ [path],
           outputs := addPath p.outputs path }

/-- Modelled from the spec: the exec transition (spec 4.2): every entry whose
`close_on_exec` is true is purged, all other state persists. -/
def Process.Exec (p : Process) : Process :=
  { p with fdTable := fun k =>
      match p.fdTable k with
      | none => none
      | some e => if e.closeOnExec then none else some e }

/-- Modelled from the spec: `Process::Normalise(path)` (spec 4.1, form 1):
resolution against the cwd of the process. -/
def Process.Normalise (p : Process) (path : String) : String := normalize path p.cwd

/-- Modelled from the spec: `Process::Normalise(path, base)` (spec 4.1, form 2). -/
def Process.NormaliseIn (_p : Process) (path base : String) : String := normalize path base

/-- Modelled from the spec: `Process::Normalise(dirfd, path)` (spec 4.1, form 3):
an absolute path is taken verbatim; a relative one is resolved against the cwd
when `dirfd` is `AT_FDCWD` and otherwise against the path bound to `dirfd` in the
fd-table, whose lookup is the error of `GetFd` when `dirfd` is absent. -/
def Process.NormaliseAt (p : Process) (dirfd : Int) (path : String) : Except String String :=
  if isAbsolute path then .ok (normalize path p.cwd)
  else if dirfd = AT_FDCWD then .ok (normalize path p.cwd)
  else
    match p.GetFd dirfd with
    | .error msg => .error msg
    | .ok base => .ok (normalize path base)

/-- Modelled from the spec: `struct Args` of `syscall.h` (spec 4.3,
`Args{pid, a0..a5, return}`): the pid of the tracee, the signed return value and
the six `uint64_t` argument registers `args[0..5]`. -/
structure Args where
  PID : Int
  Return : Int
  a0 : Nat
  a1 : Nat
  a2 : Nat
  a3 : Nat
  a4 : Nat
  a5 : Nat

/-! ## The handlers of `syscall.cpp`

Each handler is the source function of the same name: it takes the process
state and the argument vector and yields the state it leaves behind together
with the exception it threw, if any.  A register passed where the callee
takes a descriptor is converted to `int` (`intOf`, `toInt32`). -/

/-- Handler `sys_read`. -/
def sys_read (env : Env) (p : Process) (args : Args) : Outcome :=
  if args.Return ≥ 0 then p.AddInputFd env (intOf args.a0) else .ok p

/-- Handler `sys_write`. -/
def sys_write (env : Env) (p : Process) (args : Args) : Outcome :=
  if args.Return ≥ 0 then p.AddOutputFd env (intOf args.a0) else .ok p

/-- Handler `sys_open`. -/
def sys_open (env : Env) (p : Process) (args : Args) : Outcome :=
  let path := p.Normalise (env.ReadString args.PID args.a0)
  let flags := args.a1
  let fd := toInt32 args.Return
  if args.Return ≥ 0 then
    .ok ((p.MapFd fd path).SetCloseExec fd (u64Test flags O_CLOEXEC))
  else .ok p

/-- Handler `sys_close`. -/
def sys_close (_env : Env) (p : Process) (args : Args) : Outcome :=
  if args.Return ≥ 0 then .ok (p.CloseFd (intOf args.a0)) else .ok p

/-- Handler `sys_stat`. -/
def sys_stat (env : Env) (p : Process) (args : Args) : Outcome :=
  let path := p.Normalise (env.ReadString args.PID args.a0)
  if args.Return ≥ 0 then .ok (p.AddTouched path) else .ok p

/-- Handler `sys_fstat`. -/
def sys_fstat (env : Env) (p : Process) (args : Args) : Outcome :=
  if args.Return ≥ 0 then p.AddTouchedFd env (intOf args.a0) else .ok p

/-- Handler `sys_lstat`. -/
def sys_lstat (env : Env) (p : Process) (args : Args) : Outcome :=
  let path := p.Normalise (env.ReadString args.PID args.a0)
  if args.Return ≥ 0 then .ok (p.AddTouched path) else .ok p

/-- Handler `sys_mmap`. -/
def sys_mmap (env : Env) (p : Process) (args : Args) : Outcome :=
  let prot := intOf args.a2
  let flags := intOf args.a3
  let fd := intOf args.a4
  if args.Return ≠ MAP_ANON ∧ fd ≠ -1 then
    if intTest flags MAP_SHARED && intTest prot PROT_WRITE then
      p.AddOutputFd env fd
    else
      p.AddInputFd env fd
  else .ok p

/-- Handler `sys_pread64`. -/
def sys_pread64 (env : Env) (p : Process) (args : Args) : Outcome :=
  if args.Return ≥ 0 then p.AddInputFd env (intOf args.a0) else .ok p

/-- Handler `sys_readv`. -/
def sys_readv (env : Env) (p : Process) (args : Args) : Outcome :=
  if args.Return ≥ 0 then p.AddInputFd env (intOf args.a0) else .ok p

/-- Handler `sys_writev`. -/
def sys_writev (env : Env) (p : Process) (args : Args) : Outcome :=
  if args.Return ≥ 0 then p.AddInputFd env (intOf args.a0) else .ok p

/-- Handler `sys_access`. -/
def sys_access (env : Env) (p : Process) (args : Args) : Outcome :=
  let path := p.Normalise (env.ReadString args.PID args.a0)
  if args.Return ≥ 0 then .ok (p.AddTouched path) else .ok p

/-- Modelled from the spec: message of the fatal error of `ReadBuffer` when the
two pipe descriptors cannot be read (spec section 7 fixes no text). -/
def readBufferFailed : String := "ReadBuffer failed"

/-- Handler `sys_pipe`. -/
def sys_pipe (env : Env) (p : Process) (args : Args) : Outcome :=
  match env.ReadBuffer args.PID args.a0 with
  | none => .throw readBufferFailed p
  | some fds =>
    if args.Return ≥ 0 then .ok (p.Pipe env fds.1 fds.2) else .ok p

/-- Handler `sys_dup`. -/
def sys_dup (_env : Env) (p : Process) (args : Args) : Outcome :=
  if args.Return ≥ 0 then .ok (p.DupFd (intOf args.a0) (toInt32 args.Return)) else .ok p

/-- Handler `sys_dup2`. -/
def sys_dup2 (_env : Env) (p : Process) (args : Args) : Outcome :=
  if args.Return ≥ 0 then .ok (p.DupFd (intOf args.a0) (toInt32 args.Return)) else .ok p

/-- Handler `sys_socket`. -/
def sys_socket (_env : Env) (p : Process) (args : Args) : Outcome :=
  if args.Return ≥ 0 then .ok (p.MapFd (toInt32 args.Return) "/proc/network") else .ok p

/-- Message of the exception `sys_fcntl` throws for a command it does not know. -/
def unknownFcntl (cmd : Int) : String := "Unknown fnctl (cmd = " ++ toString cmd ++ ")"

/-- Handler `sys_fcntl`. -/
def sys_fcntl (_env : Env) (p : Process) (args : Args) : Outcome :=
  let fd := intOf args.a0
  let cmd := intOf args.a1
  if args.Return ≥ 0 then
    if cmd = F_DUPFD then
      .ok (p.DupFd (intOf args.a0) (toInt32 args.Return))
    else if cmd = F_DUPFD_CLOEXEC then
      .ok ((p.DupFd (intOf args.a0) (toInt32 args.Return)).SetCloseExec (toInt32 args.Return) false)
    else if cmd = F_SETFD then
      let arg := intOf args.a2
      .ok (p.SetCloseExec fd (intTest arg FD_CLOEXEC))
    else if cmd = F_GETFD ∨ cmd = F_GETFL ∨ cmd = F_SETFL then
      .ok p
    else if cmd = F_GETLK ∨ cmd = F_SETLK ∨ cmd = F_SETLKW then
      .ok p
    else if cmd = F_OFD_GETLK ∨ cmd = F_OFD_SETLK ∨ cmd = F_OFD_SETLKW then
      .ok p
    else
      .throw (unknownFcntl cmd) p
  else .ok p

/-- Handler `sys_ftruncate`. -/
def sys_ftruncate (env : Env) (p : Process) (args : Args) : Outcome :=
  if args.Return ≥ 0 then p.AddOutputFd env (intOf args.a0) else .ok p

/-- Handler `sys_getdents`. -/
def sys_getdents (env : Env) (p : Process) (args : Args) : Outcome :=
  if args.Return ≥ 0 then p.AddInputFd env (intOf args.a0) else .ok p

/-- Handler `sys_chdir`. -/
def sys_chdir (env : Env) (p : Process) (args : Args) : Outcome :=
  let path := p.Normalise (env.ReadString args.PID args.a0)
  if args.Return ≥ 0 then .ok (p.SetCwd path) else .ok p

/-- Handler `sys_fchdir`. -/
def sys_fchdir (_env : Env) (p : Process) (args : Args) : Outcome :=
  let fd := intOf args.a0
  if args.Return ≥ 0 then
    match p.GetFd fd with
    | .error msg => .throw msg p
    | .ok path => .ok (p.SetCwd path)
  else .ok p

/-- Handler `sys_rename`. -/
def sys_rename (env : Env) (p : Process) (args : Args) : Outcome :=
  let src := p.Normalise (env.ReadString args.PID args.a0)
  let dst := p.Normalise (env.ReadString args.PID args.a1)
  if args.Return ≥ 0 then .ok (p.Rename src dst) else .ok p

/-- Handler `sys_mkdir`. -/
def sys_mkdir (env : Env) (p : Process) (args : Args) : Outcome :=
  let path := p.Normalise (env.ReadString args.PID args.a0)
  if args.Return ≥ 0 then .ok (p.AddOutput path) else .ok p

/-- Handler `sys_rmdir`. -/
def sys_rmdir (env : Env) (p : Process) (args : Args) : Outcome :=
  let path := p.Normalise (env.ReadString args.PID args.a0)
  if args.Return ≥ 0 then .ok (p.Remove path) else .ok p

/-- Handler `sys_link`. -/
def sys_link (env : Env) (p : Process) (args : Args) : Outcome :=
  if args.Return ≥ 0 then
    let srcRel := env.ReadString args.PID args.a0
    let dstRel := env.ReadString args.PID args.a1
    let src := p.Normalise srcRel
    let dstParent := p.Normalise (parent_path dstRel)
    .ok (p.Link src (pathAppend dstParent (filename dstRel)))
  else .ok p

/-- Handler `sys_creat`. -/
def sys_creat (env : Env) (p : Process) (args : Args) : Outcome :=
  let path := p.Normalise (env.ReadString args.PID args.a0)
  let flags := args.a1
  if args.Return ≥ 0 then
    let fd := toInt32 args.Return
    .ok ((p.MapFd fd path).SetCloseExec fd (u64Test flags O_CLOEXEC))
  else .ok p

/-- Handler `sys_unlink`. -/
def sys_unlink (env : Env) (p : Process) (args : Args) : Outcome :=
  let path := p.Normalise (env.ReadString args.PID args.a0)
  if args.Return ≥ 0 then .ok (p.Remove path) else .ok p

/-- Handler `sys_symlink`. -/
def sys_symlink (env : Env) (p : Process) (args : Args) : Outcome :=
  if args.Return ≥ 0 then
    let src := env.ReadString args.PID args.a0
    let dst := env.ReadString args.PID args.a1
    let parent := p.Normalise (parent_path dst)
    let srcPath := p.NormaliseIn src parent
    let dstPath := pathAppend parent (filename dst)
    if srcPath ≠ dstPath then .ok (p.Link srcPath dstPath) else .ok p
  else .ok p

/-- Handler `sys_readlink`. -/
def sys_readlink (env : Env) (p : Process) (args : Args) : Outcome :=
  let path := p.Normalise (env.ReadString args.PID args.a0)
  if args.Return ≥ 0 then .ok (p.AddInput path) else .ok p

/-- Handler `sys_utime`. -/
def sys_utime (env : Env) (p : Process) (args : Args) : Outcome :=
  if args.Return ≥ 0 then
    .ok (p.AddOutput (p.Normalise (env.ReadString args.PID args.a0)))
  else .ok p

/-- Handler `sys_linkat`. -/
def sys_linkat (env : Env) (p : Process) (args : Args) : Outcome :=
  if args.Return ≥ 0 then
    let srcRel := env.ReadString args.PID args.a1
    let dstRel := env.ReadString args.PID args.a3
    match p.NormaliseAt (intOf args.a0) srcRel with
    | .error msg => .throw msg p
    | .ok src =>
      match p.NormaliseAt (intOf args.a2) (parent_path dstRel) with
      | .error msg => .throw msg p
      | .ok dstParent => .ok (p.Link src (pathAppend dstParent (filename dstRel)))
  else .ok p

/-- Handler `sys_fsetxattr`. -/
def sys_fsetxattr (_env : Env) (p : Process) (args : Args) : Outcome :=
  if args.Return ≥ 0 then
    match p.GetFd (intOf args.a0) with
    | .error msg => .throw msg p
    | .ok path => .ok (p.AddOutput path)
  else .ok p

/-- Handler `sys_getxattr`. -/
def sys_getxattr (env : Env) (p : Process) (args : Args) : Outcome :=
  let path := env.ReadString args.PID args.a0
  let parent := p.Normalise (parent_path path)
  if args.Return ≥ 0 then .ok (p.AddInput (pathAppend parent (filename path))) else .ok p

/-- Handler `sys_lgetxattr`. -/
def sys_lgetxattr (env : Env) (p : Process) (args : Args) : Outcome :=
  let path := p.Normalise (env.ReadString args.PID args.a0)
  if args.Return ≥ 0 then .ok (p.AddInput path) else .ok p

/-- Handler `sys_llistxattr`. -/
def sys_llistxattr (env : Env) (p : Process) (args : Args) : Outcome :=
  let path := p.Normalise (env.ReadString args.PID args.a0)
  if args.Return ≥ 0 then .ok (p.AddInput path) else .ok p

/-- Handler `sys_flistxattr`. -/
def sys_flistxattr (_env : Env) (p : Process) (_args : Args) : Outcome :=
  .throw "not implemented" p

/-- Handler `sys_epoll_create`. -/
def sys_epoll_create (_env : Env) (p : Process) (args : Args) : Outcome :=
  if args.Return ≥ 0 then
    .ok (p.MapFd (toInt32 args.Return) ("/proc/" ++ toString args.PID ++ "/epoll"))
  else .ok p

/-- Handler `sys_getdents64`. -/
def sys_getdents64 (env : Env) (p : Process) (args : Args) : Outcome :=
  if args.Return ≥ 0 then p.AddInputFd env (intOf args.a0) else .ok p

/-- Handler `sys_openat`. -/
def sys_openat (env : Env) (p : Process) (args : Args) : Outcome :=
  let dirfd := intOf args.a0
  match p.NormaliseAt dirfd (env.ReadString args.PID args.a1) with
  | .error msg => .throw msg p
  | .ok path =>
    let flags := args.a2
    if args.Return ≥ 0 then
      let fd := toInt32 args.Return
      .ok ((p.MapFd fd path).SetCloseExec fd (u64Test flags O_CLOEXEC))
    else .ok p

/-- Handler `sys_mkdirat`. -/
def sys_mkdirat (env : Env) (p : Process) (args : Args) : Outcome :=
  let dirfd := intOf args.a0
  match p.NormaliseAt dirfd (env.ReadString args.PID args.a1) with
  | .error msg => .throw msg p
  | .ok path => if args.Return ≥ 0 then .ok (p.AddOutput path) else .ok p

/-- Handler `sys_newfstatat`. -/
def sys_newfstatat (env : Env) (p : Process) (args : Args) : Outcome :=
  let dirfd := intOf args.a0
  match p.NormaliseAt dirfd (env.ReadString args.PID args.a1) with
  | .error msg => .throw msg p
  | .ok path => if args.Return ≥ 0 then .ok (p.AddTouched path) else .ok p

/-- Handler `sys_renameat`. -/
def sys_renameat (env : Env) (p : Process) (args : Args) : Outcome :=
  let odirfd := intOf args.a0
  match p.NormaliseAt odirfd (env.ReadString args.PID args.a1) with
  | .error msg => .throw msg p
  | .ok opath =>
    let ndirfd := intOf args.a2
    match p.NormaliseAt ndirfd (env.ReadString args.PID args.a3) with
    | .error msg => .throw msg p
    | .ok npath => if args.Return ≥ 0 then .ok (p.Rename opath npath) else .ok p

/-- Handler `sys_unlinkat`. -/
def sys_unlinkat (env : Env) (p : Process) (args : Args) : Outcome :=
  let fd := intOf args.a0
  match p.NormaliseAt fd (env.ReadString args.PID args.a1) with
  | .error msg => .throw msg p
  | .ok path => if args.Return ≥ 0 then .ok (p.Remove path) else .ok p

/-- Handler `sys_readlinkat`. -/
def sys_readlinkat (env : Env) (p : Process) (args : Args) : Outcome :=
  let fd := intOf args.a0
  match p.NormaliseAt fd (env.ReadString args.PID args.a1) with
  | .error msg => .throw msg p
  | .ok path => if args.Return ≥ 0 then .ok (p.AddInput path) else .ok p

/-- Handler `sys_faccessat`. -/
def sys_faccessat (env : Env) (p : Process) (args : Args) : Outcome :=
  let fd := intOf args.a0
  match p.NormaliseAt fd (env.ReadString args.PID args.a1) with
  | .error msg => .throw msg p
  | .ok path => if args.Return ≥ 0 then .ok (p.AddInput path) else .ok p

/-- Handler `sys_splice`. -/
def sys_splice (_env : Env) (p : Process) (_args : Args) : Outcome :=
  .throw "not implemented" p

/-- Handler `sys_fallocate`. -/
def sys_fallocate (env : Env) (p : Process) (args : Args) : Outcome :=
  if args.Return ≥ 0 then p.AddOutputFd env (intOf args.a0) else .ok p

/-- Handler `sys_eventfd2`. -/
def sys_eventfd2 (_env : Env) (p : Process) (args : Args) : Outcome :=
  let flags := intOf args.a1
  let fd := toInt32 args.Return
  if args.Return ≥ 0 then
    .ok ((p.MapFd fd ("/proc/" ++ toString args.PID ++ "/event")).SetCloseExec fd
      (intTest flags EFD_CLOEXEC))
  else .ok p

/-- Handler `sys_dup3`. -/
def sys_dup3 (_env : Env) (p : Process) (args : Args) : Outcome :=
  let oldfd := intOf args.a0
  let newfd := intOf args.a1
  let flags := intOf args.a2
  let p1 := if args.Return ≥ 0 then p.DupFd oldfd newfd else p
  .ok (p1.SetCloseExec newfd (intTest flags O_CLOEXEC))

/-- Handler `sys_pipe2`. -/
def sys_pipe2 (env : Env) (p : Process) (args : Args) : Outcome :=
  match env.ReadBuffer args.PID args.a0 with
  | none => .throw readBufferFailed p
  | some fds =>
    let flags := intOf args.a1
    if args.Return ≥ 0 then
      let p1 := p.Pipe env fds.1 fds.2
      let closeExec := intTest flags O_CLOEXEC
      .ok ((p1.SetCloseExec fds.1 closeExec).SetCloseExec fds.2 closeExec)
    else .ok p

/-- Handler `sys_ignore`. -/
def sys_ignore (_env : Env) (p : Process) (_args : Args) : Outcome := .ok p

/-! ## The handler table and the dispatcher -/

/-- The handlers of `syscall.cpp` by name: the values a slot of `kHandlers` can
hold (the source type is the function pointer `HandlerFn`). -/
inductive HandlerFn where
  | sys_read
  | sys_write
  | sys_open
  | sys_close
  | sys_stat
  | sys_fstat
  | sys_lstat
  | sys_mmap
  | sys_pread64
  | sys_readv
  | sys_writev
  | sys_access
  | sys_pipe
  | sys_dup
  | sys_dup2
  | sys_socket
  | sys_fcntl
  | sys_ftruncate
  | sys_getdents
  | sys_chdir
  | sys_fchdir
  | sys_rename
  | sys_mkdir
  | sys_rmdir
  | sys_link
  | sys_creat
  | sys_unlink
  | sys_symlink
  | sys_readlink
  | sys_utime
  | sys_linkat
  | sys_fsetxattr
  | sys_getxattr
  | sys_lgetxattr
  | sys_llistxattr
  | sys_flistxattr
  | sys_epoll_create
  | sys_getdents64
  | sys_openat
  | sys_mkdirat
  | sys_newfstatat
  | sys_renameat
  | sys_unlinkat
  | sys_readlinkat
  | sys_faccessat
  | sys_splice
  | sys_fallocate
  | sys_eventfd2
  | sys_dup3
  | sys_pipe2
  | sys_ignore
deriving DecidableEq, Repr

/-- The function a handler name stands for. -/
def HandlerFn.run : HandlerFn → Env → Process → Args → Outcome
  | .sys_read => Mkcheck.sys_read
  | .sys_write => Mkcheck.sys_write
  | .sys_open => Mkcheck.sys_open
  | .sys_close => Mkcheck.sys_close
  | .sys_stat => Mkcheck.sys_stat
  | .sys_fstat => Mkcheck.sys_fstat
  | .sys_lstat => Mkcheck.sys_lstat
  | .sys_mmap => Mkcheck.sys_mmap
  | .sys_pread64 => Mkcheck.sys_pread64
  | .sys_readv => Mkcheck.sys_readv
  | .sys_writev => Mkcheck.sys_writev
  | .sys_access => Mkcheck.sys_access
  | .sys_pipe => Mkcheck.sys_pipe
  | .sys_dup => Mkcheck.sys_dup
  | .sys_dup2 => Mkcheck.sys_dup2
  | .sys_socket => Mkcheck.sys_socket
  | .sys_fcntl => Mkcheck.sys_fcntl
  | .sys_ftruncate => Mkcheck.sys_ftruncate
  | .sys_getdents => Mkcheck.sys_getdents
  | .sys_chdir => Mkcheck.sys_chdir
  | .sys_fchdir => Mkcheck.sys_fchdir
  | .sys_rename => Mkcheck.sys_rename
  | .sys_mkdir => Mkcheck.sys_mkdir
  | .sys_rmdir => Mkcheck.sys_rmdir
  | .sys_link => Mkcheck.sys_link
  | .sys_creat => Mkcheck.sys_creat
  | .sys_unlink => Mkcheck.sys_unlink
  | .sys_symlink => Mkcheck.sys_symlink
  | .sys_readlink => Mkcheck.sys_readlink
  | .sys_utime => Mkcheck.sys_utime
  | .sys_linkat => Mkcheck.sys_linkat
  | .sys_fsetxattr => Mkcheck.sys_fsetxattr
  | .sys_getxattr => Mkcheck.sys_getxattr
  | .sys_lgetxattr => Mkcheck.sys_lgetxattr
  | .sys_llistxattr => Mkcheck.sys_llistxattr
  | .sys_flistxattr => Mkcheck.sys_flistxattr
  | .sys_epoll_create => Mkcheck.sys_epoll_create
  | .sys_getdents64 => Mkcheck.sys_getdents64
  | .sys_openat => Mkcheck.sys_openat
  | .sys_mkdirat => Mkcheck.sys_mkdirat
  | .sys_newfstatat => Mkcheck.sys_newfstatat
  | .sys_renameat => Mkcheck.sys_renameat
  | .sys_unlinkat => Mkcheck.sys_unlinkat
  | .sys_readlinkat => Mkcheck.sys_readlinkat
  | .sys_faccessat => Mkcheck.sys_faccessat
  | .sys_splice => Mkcheck.sys_splice
  | .sys_fallocate => Mkcheck.sys_fallocate
  | .sys_eventfd2 => Mkcheck.sys_eventfd2
  | .sys_dup3 => Mkcheck.sys_dup3
  | .sys_pipe2 => Mkcheck.sys_pipe2
  | .sys_ignore => Mkcheck.sys_ignore

/-! Syscall numbers of `<sys/syscall.h>` (Linux x86-64). -/

/-- Syscall number `SYS_read`. -/
def SYS_read : Nat := 0
/-- Syscall number `SYS_write`. -/
def SYS_write : Nat := 1
/-- Syscall number `SYS_open`. -/
def SYS_open : Nat := 2
/-- Syscall number `SYS_close`. -/
def SYS_close : Nat := 3
/-- Syscall number `SYS_stat`. -/
def SYS_stat : Nat := 4
/-- Syscall number `SYS_fstat`. -/
def SYS_fstat : Nat := 5
/-- Syscall number `SYS_lstat`. -/
def SYS_lstat : Nat := 6
/-- Syscall number `SYS_poll`. -/
def SYS_poll : Nat := 7
/-- Syscall number `SYS_lseek`. -/
def SYS_lseek : Nat := 8
/-- Syscall number `SYS_mmap`. -/
def SYS_mmap : Nat := 9
/-- Syscall number `SYS_mprotect`. -/
def SYS_mprotect : Nat := 10
/-- Syscall number `SYS_munmap`. -/
def SYS_munmap : Nat := 11
/-- Syscall number `SYS_brk`. -/
def SYS_brk : Nat := 12
/-- Syscall number `SYS_rt_sigaction`. -/
def SYS_rt_sigaction : Nat := 13
/-- Syscall number `SYS_rt_sigprocmask`. -/
def SYS_rt_sigprocmask : Nat := 14
/-- Syscall number `SYS_rt_sigreturn`. -/
def SYS_rt_sigreturn : Nat := 15
/-- Syscall number `SYS_ioctl`. -/
def SYS_ioctl : Nat := 16
/-- Syscall number `SYS_pread64`. -/
def SYS_pread64 : Nat := 17
/-- Syscall number `SYS_readv`. -/
def SYS_readv : Nat := 19
/-- Syscall number `SYS_writev`. -/
def SYS_writev : Nat := 20
/-- Syscall number `SYS_access`. -/
def SYS_access : Nat := 21
/-- Syscall number `SYS_pipe`. -/
def SYS_pipe : Nat := 22
/-- Syscall number `SYS_select`. -/
def SYS_select : Nat := 23
/-- Syscall number `SYS_sched_yield`. -/
def SYS_sched_yield : Nat := 24
/-- Syscall number `SYS_mremap`. -/
def SYS_mremap : Nat := 25
/-- Syscall number `SYS_msync`. -/
def SYS_msync : Nat := 26
/-- Syscall number `SYS_mincore`. -/
def SYS_mincore : Nat := 27
/-- Syscall number `SYS_madvise`. -/
def SYS_madvise : Nat := 28
/-- Syscall number `SYS_dup`. -/
def SYS_dup : Nat := 32
/-- Syscall number `SYS_dup2`. -/
def SYS_dup2 : Nat := 33
/-- Syscall number `SYS_nanosleep`. -/
def SYS_nanosleep : Nat := 35
/-- Syscall number `SYS_alarm`. -/
def SYS_alarm : Nat := 37
/-- Syscall number `SYS_setitimer`. -/
def SYS_setitimer : Nat := 38
/-- Syscall number `SYS_getpid`. -/
def SYS_getpid : Nat := 39
/-- Syscall number `SYS_socket`. -/
def SYS_socket : Nat := 41
/-- Syscall number `SYS_connect`. -/
def SYS_connect : Nat := 42
/-- Syscall number `SYS_sendto`. -/
def SYS_sendto : Nat := 44
/-- Syscall number `SYS_recvfrom`. -/
def SYS_recvfrom : Nat := 45
/-- Syscall number `SYS_sendmsg`. -/
def SYS_sendmsg : Nat := 46
/-- Syscall number `SYS_recvmsg`. -/
def SYS_recvmsg : Nat := 47
/-- Syscall number `SYS_bind`. -/
def SYS_bind : Nat := 49
/-- Syscall number `SYS_getsockname`. -/
def SYS_getsockname : Nat := 51
/-- Syscall number `SYS_getpeername`. -/
def SYS_getpeername : Nat := 52
/-- Syscall number `SYS_socketpair`. -/
def SYS_socketpair : Nat := 53
/-- Syscall number `SYS_setsockopt`. -/
def SYS_setsockopt : Nat := 54
/-- Syscall number `SYS_getsockopt`. -/
def SYS_getsockopt : Nat := 55
/-- Syscall number `SYS_clone`. -/
def SYS_clone : Nat := 56
/-- Syscall number `SYS_fork`. -/
def SYS_fork : Nat := 57
/-- Syscall number `SYS_vfork`. -/
def SYS_vfork : Nat := 58
/-- Syscall number `SYS_execve`. -/
def SYS_execve : Nat := 59
/-- Syscall number `SYS_wait4`. -/
def SYS_wait4 : Nat := 61
/-- Syscall number `SYS_uname`. -/
def SYS_uname : Nat := 63
/-- Syscall number `SYS_fcntl`. -/
def SYS_fcntl : Nat := 72
/-- Syscall number `SYS_flock`. -/
def SYS_flock : Nat := 73
/-- Syscall number `SYS_fsync`. -/
def SYS_fsync : Nat := 74
/-- Syscall number `SYS_ftruncate`. -/
def SYS_ftruncate : Nat := 77
/-- Syscall number `SYS_getdents`. -/
def SYS_getdents : Nat := 78
/-- Syscall number `SYS_getcwd`. -/
def SYS_getcwd : Nat := 79
/-- Syscall number `SYS_chdir`. -/
def SYS_chdir : Nat := 80
/-- Syscall number `SYS_fchdir`. -/
def SYS_fchdir : Nat := 81
/-- Syscall number `SYS_rename`. -/
def SYS_rename : Nat := 82
/-- Syscall number `SYS_mkdir`. -/
def SYS_mkdir : Nat := 83
/-- Syscall number `SYS_rmdir`. -/
def SYS_rmdir : Nat := 84
/-- Syscall number `SYS_creat`. -/
def SYS_creat : Nat := 85
/-- Syscall number `SYS_link`. -/
def SYS_link : Nat := 86
/-- Syscall number `SYS_unlink`. -/
def SYS_unlink : Nat := 87
/-- Syscall number `SYS_symlink`. -/
def SYS_symlink : Nat := 88
/-- Syscall number `SYS_readlink`. -/
def SYS_readlink : Nat := 89
/-- Syscall number `SYS_chmod`. -/
def SYS_chmod : Nat := 90
/-- Syscall number `SYS_fchmod`. -/
def SYS_fchmod : Nat := 91
/-- Syscall number `SYS_chown`. -/
def SYS_chown : Nat := 92
/-- Syscall number `SYS_umask`. -/
def SYS_umask : Nat := 95
/-- Syscall number `SYS_gettimeofday`. -/
def SYS_gettimeofday : Nat := 96
/-- Syscall number `SYS_getrlimit`. -/
def SYS_getrlimit : Nat := 97
/-- Syscall number `SYS_getrusage`. -/
def SYS_getrusage : Nat := 98
/-- Syscall number `SYS_sysinfo`. -/
def SYS_sysinfo : Nat := 99
/-- Syscall number `SYS_times`. -/
def SYS_times : Nat := 100
/-- Syscall number `SYS_getuid`. -/
def SYS_getuid : Nat := 102
/-- Syscall number `SYS_getgid`. -/
def SYS_getgid : Nat := 104
/-- Syscall number `SYS_geteuid`. -/
def SYS_geteuid : Nat := 107
/-- Syscall number `SYS_getegid`. -/
def SYS_getegid : Nat := 108
/-- Syscall number `SYS_setpgid`. -/
def SYS_setpgid : Nat := 109
/-- Syscall number `SYS_getppid`. -/
def SYS_getppid : Nat := 110
/-- Syscall number `SYS_getpgrp`. -/
def SYS_getpgrp : Nat := 111
/-- Syscall number `SYS_setsid`. -/
def SYS_setsid : Nat := 112
/-- Syscall number `SYS_setreuid`. -/
def SYS_setreuid : Nat := 113
/-- Syscall number `SYS_getgroups`. -/
def SYS_getgroups : Nat := 115
/-- Syscall number `SYS_rt_sigpending`. -/
def SYS_rt_sigpending : Nat := 127
/-- Syscall number `SYS_sigaltstack`. -/
def SYS_sigaltstack : Nat := 131
/-- Syscall number `SYS_utime`. -/
def SYS_utime : Nat := 132
/-- Syscall number `SYS_personality`. -/
def SYS_personality : Nat := 135
/-- Syscall number `SYS_statfs`. -/
def SYS_statfs : Nat := 137
/-- Syscall number `SYS_fstatfs`. -/
def SYS_fstatfs : Nat := 138
/-- Syscall number `SYS_prctl`. -/
def SYS_prctl : Nat := 157
/-- Syscall number `SYS_arch_prctl`. -/
def SYS_arch_prctl : Nat := 158
/-- Syscall number `SYS_setrlimit`. -/
def SYS_setrlimit : Nat := 160
/-- Syscall number `SYS_linkat`. -/
def SYS_linkat : Nat := 265
/-- Syscall number `SYS_gettid`. -/
def SYS_gettid : Nat := 186
/-- Syscall number `SYS_fsetxattr`. -/
def SYS_fsetxattr : Nat := 190
/-- Syscall number `SYS_getxattr`. -/
def SYS_getxattr : Nat := 191
/-- Syscall number `SYS_lgetxattr`. -/
def SYS_lgetxattr : Nat := 192
/-- Syscall number `SYS_llistxattr`. -/
def SYS_llistxattr : Nat := 195
/-- Syscall number `SYS_flistxattr`. -/
def SYS_flistxattr : Nat := 196
/-- Syscall number `SYS_time`. -/
def SYS_time : Nat := 201
/-- Syscall number `SYS_futex`. -/
def SYS_futex : Nat := 202
/-- Syscall number `SYS_sched_setaffinity`. -/
def SYS_sched_setaffinity : Nat := 203
/-- Syscall number `SYS_sched_getaffinity`. -/
def SYS_sched_getaffinity : Nat := 204
/-- Syscall number `SYS_epoll_create`. -/
def SYS_epoll_create : Nat := 213
/-- Syscall number `SYS_getdents64`. -/
def SYS_getdents64 : Nat := 217
/-- Syscall number `SYS_set_tid_address`. -/
def SYS_set_tid_address : Nat := 218
/-- Syscall number `SYS_restart_syscall`. -/
def SYS_restart_syscall : Nat := 219
/-- Syscall number `SYS_timer_create`. -/
def SYS_timer_create : Nat := 222
/-- Syscall number `SYS_timer_settime`. -/
def SYS_timer_settime : Nat := 223
/-- Syscall number `SYS_timer_gettime`. -/
def SYS_timer_gettime : Nat := 224
/-- Syscall number `SYS_timer_getoverrun`. -/
def SYS_timer_getoverrun : Nat := 225
/-- Syscall number `SYS_timer_delete`. -/
def SYS_timer_delete : Nat := 226
/-- Syscall number `SYS_fadvise64`. -/
def SYS_fadvise64 : Nat := 221
/-- Syscall number `SYS_clock_gettime`. -/
def SYS_clock_gettime : Nat := 228
/-- Syscall number `SYS_clock_getres`. -/
def SYS_clock_getres : Nat := 229
/-- Syscall number `SYS_exit_group`. -/
def SYS_exit_group : Nat := 231
/-- Syscall number `SYS_epoll_wait`. -/
def SYS_epoll_wait : Nat := 232
/-- Syscall number `SYS_epoll_ctl`. -/
def SYS_epoll_ctl : Nat := 233
/-- Syscall number `SYS_tgkill`. -/
def SYS_tgkill : Nat := 234
/-- Syscall number `SYS_utimes`. -/
def SYS_utimes : Nat := 235
/-- Syscall number `SYS_waitid`. -/
def SYS_waitid : Nat := 247
/-- Syscall number `SYS_openat`. -/
def SYS_openat : Nat := 257
/-- Syscall number `SYS_mkdirat`. -/
def SYS_mkdirat : Nat := 258
/-- Syscall number `SYS_newfstatat`. -/
def SYS_newfstatat : Nat := 262
/-- Syscall number `SYS_unlinkat`. -/
def SYS_unlinkat : Nat := 263
/-- Syscall number `SYS_renameat`. -/
def SYS_renameat : Nat := 264
/-- Syscall number `SYS_readlinkat`. -/
def SYS_readlinkat : Nat := 267
/-- Syscall number `SYS_fchmodat`. -/
def SYS_fchmodat : Nat := 268
/-- Syscall number `SYS_faccessat`. -/
def SYS_faccessat : Nat := 269
/-- Syscall number `SYS_pselect6`. -/
def SYS_pselect6 : Nat := 270
/-- Syscall number `SYS_ppoll`. -/
def SYS_ppoll : Nat := 271
/-- Syscall number `SYS_set_robust_list`. -/
def SYS_set_robust_list : Nat := 273
/-- Syscall number `SYS_splice`. -/
def SYS_splice : Nat := 275
/-- Syscall number `SYS_utimensat`. -/
def SYS_utimensat : Nat := 280
/-- Syscall number `SYS_epoll_pwait`. -/
def SYS_epoll_pwait : Nat := 281
/-- Syscall number `SYS_fallocate`. -/
def SYS_fallocate : Nat := 285
/-- Syscall number `SYS_eventfd2`. -/
def SYS_eventfd2 : Nat := 290
/-- Syscall number `SYS_epoll_create1`. -/
def SYS_epoll_create1 : Nat := 291
/-- Syscall number `SYS_dup3`. -/
def SYS_dup3 : Nat := 292
/-- Syscall number `SYS_pipe2`. -/
def SYS_pipe2 : Nat := 293
/-- Syscall number `SYS_prlimit64`. -/
def SYS_prlimit64 : Nat := 302
/-- Syscall number `SYS_sendmmsg`. -/
def SYS_sendmmsg : Nat := 307
/-- Syscall number `SYS_getrandom`. -/
def SYS_getrandom : Nat := 318

/-- The designated initialisers of `kHandlers`, in source order. -/
def kEntries : List (Nat × HandlerFn) :=
  [ (SYS_read, HandlerFn.sys_read),
    (SYS_write, HandlerFn.sys_write),
    (SYS_open, HandlerFn.sys_open),
    (SYS_close, HandlerFn.sys_close),
    (SYS_stat, HandlerFn.sys_stat),
    (SYS_fstat, HandlerFn.sys_fstat),
    (SYS_lstat, HandlerFn.sys_lstat),
    (SYS_poll, HandlerFn.sys_ignore),
    (SYS_lseek, HandlerFn.sys_ignore),
    (SYS_mmap, HandlerFn.sys_mmap),
    (SYS_mprotect, HandlerFn.sys_ignore),
    (SYS_munmap, HandlerFn.sys_ignore),
    (SYS_brk, HandlerFn.sys_ignore),
    (SYS_rt_sigaction, HandlerFn.sys_ignore),
    (SYS_rt_sigprocmask, HandlerFn.sys_ignore),
    (SYS_rt_sigreturn, HandlerFn.sys_ignore),
    (SYS_ioctl, HandlerFn.sys_ignore),
    (SYS_pread64, HandlerFn.sys_pread64),
    (SYS_readv, HandlerFn.sys_readv),
    (SYS_writev, HandlerFn.sys_writev),
    (SYS_access, HandlerFn.sys_access),
    (SYS_pipe, HandlerFn.sys_pipe),
    (SYS_select, HandlerFn.sys_ignore),
    (SYS_sched_yield, HandlerFn.sys_ignore),
    (SYS_mremap, HandlerFn.sys_ignore),
    (SYS_msync, HandlerFn.sys_ignore),
    (SYS_mincore, HandlerFn.sys_ignore),
    (SYS_madvise, HandlerFn.sys_ignore),
    (SYS_dup, HandlerFn.sys_dup),
    (SYS_dup2, HandlerFn.sys_dup2),
    (SYS_nanosleep, HandlerFn.sys_ignore),
    (SYS_alarm, HandlerFn.sys_ignore),
    (SYS_setitimer, HandlerFn.sys_ignore),
    (SYS_getpid, HandlerFn.sys_ignore),
    (SYS_socket, HandlerFn.sys_socket),
    (SYS_connect, HandlerFn.sys_ignore),
    (SYS_sendto, HandlerFn.sys_ignore),
    (SYS_recvfrom, HandlerFn.sys_ignore),
    (SYS_sendmsg, HandlerFn.sys_ignore),
    (SYS_recvmsg, HandlerFn.sys_ignore),
    (SYS_bind, HandlerFn.sys_ignore),
    (SYS_getsockname, HandlerFn.sys_ignore),
    (SYS_getpeername, HandlerFn.sys_ignore),
    (SYS_socketpair, HandlerFn.sys_ignore),
    (SYS_setsockopt, HandlerFn.sys_ignore),
    (SYS_getsockopt, HandlerFn.sys_ignore),
    (SYS_clone, HandlerFn.sys_ignore),
    (SYS_fork, HandlerFn.sys_ignore),
    (SYS_vfork, HandlerFn.sys_ignore),
    (SYS_execve, HandlerFn.sys_ignore),
    (SYS_wait4, HandlerFn.sys_ignore),
    (SYS_uname, HandlerFn.sys_ignore),
    (SYS_fcntl, HandlerFn.sys_fcntl),
    (SYS_flock, HandlerFn.sys_ignore),
    (SYS_fsync, HandlerFn.sys_ignore),
    (SYS_ftruncate, HandlerFn.sys_ftruncate),
    (SYS_getdents, HandlerFn.sys_getdents),
    (SYS_getcwd, HandlerFn.sys_ignore),
    (SYS_chdir, HandlerFn.sys_chdir),
    (SYS_fchdir, HandlerFn.sys_fchdir),
    (SYS_rename, HandlerFn.sys_rename),
    (SYS_mkdir, HandlerFn.sys_mkdir),
    (SYS_rmdir, HandlerFn.sys_rmdir),
    (SYS_creat, HandlerFn.sys_creat),
    (SYS_link, HandlerFn.sys_link),
    (SYS_unlink, HandlerFn.sys_unlink),
    (SYS_symlink, HandlerFn.sys_symlink),
    (SYS_readlink, HandlerFn.sys_readlink),
    (SYS_chmod, HandlerFn.sys_ignore),
    (SYS_fchmod, HandlerFn.sys_ignore),
    (SYS_chown, HandlerFn.sys_ignore),
    (SYS_umask, HandlerFn.sys_ignore),
    (SYS_gettimeofday, HandlerFn.sys_ignore),
    (SYS_getrlimit, HandlerFn.sys_ignore),
    (SYS_getrusage, HandlerFn.sys_ignore),
    (SYS_sysinfo, HandlerFn.sys_ignore),
    (SYS_times, HandlerFn.sys_ignore),
    (SYS_getuid, HandlerFn.sys_ignore),
    (SYS_getgid, HandlerFn.sys_ignore),
    (SYS_geteuid, HandlerFn.sys_ignore),
    (SYS_getegid, HandlerFn.sys_ignore),
    (SYS_setpgid, HandlerFn.sys_ignore),
    (SYS_getppid, HandlerFn.sys_ignore),
    (SYS_getpgrp, HandlerFn.sys_ignore),
    (SYS_setsid, HandlerFn.sys_ignore),
    (SYS_setreuid, HandlerFn.sys_ignore),
    (SYS_getgroups, HandlerFn.sys_ignore),
    (SYS_rt_sigpending, HandlerFn.sys_ignore),
    (SYS_sigaltstack, HandlerFn.sys_ignore),
    (SYS_utime, HandlerFn.sys_utime),
    (SYS_personality, HandlerFn.sys_ignore),
    (SYS_statfs, HandlerFn.sys_ignore),
    (SYS_fstatfs, HandlerFn.sys_ignore),
    (SYS_prctl, HandlerFn.sys_ignore),
    (SYS_arch_prctl, HandlerFn.sys_ignore),
    (SYS_setrlimit, HandlerFn.sys_ignore),
    (SYS_linkat, HandlerFn.sys_linkat),
    (SYS_gettid, HandlerFn.sys_ignore),
    (SYS_fsetxattr, HandlerFn.sys_fsetxattr),
    (SYS_getxattr, HandlerFn.sys_getxattr),
    (SYS_lgetxattr, HandlerFn.sys_lgetxattr),
    (SYS_llistxattr, HandlerFn.sys_llistxattr),
    (SYS_flistxattr, HandlerFn.sys_flistxattr),
    (SYS_time, HandlerFn.sys_ignore),
    (SYS_futex, HandlerFn.sys_ignore),
    (SYS_sched_setaffinity, HandlerFn.sys_ignore),
    (SYS_sched_getaffinity, HandlerFn.sys_ignore),
    (SYS_epoll_create, HandlerFn.sys_epoll_create),
    (SYS_getdents64, HandlerFn.sys_getdents64),
    (SYS_set_tid_address, HandlerFn.sys_ignore),
    (SYS_restart_syscall, HandlerFn.sys_ignore),
    (SYS_timer_create, HandlerFn.sys_ignore),
    (SYS_timer_settime, HandlerFn.sys_ignore),
    (SYS_timer_gettime, HandlerFn.sys_ignore),
    (SYS_timer_getoverrun, HandlerFn.sys_ignore),
    (SYS_timer_delete, HandlerFn.sys_ignore),
    (SYS_fadvise64, HandlerFn.sys_ignore),
    (SYS_clock_gettime, HandlerFn.sys_ignore),
    (SYS_clock_getres, HandlerFn.sys_ignore),
    (SYS_exit_group, HandlerFn.sys_ignore),
    (SYS_epoll_wait, HandlerFn.sys_ignore),
    (SYS_epoll_ctl, HandlerFn.sys_ignore),
    (SYS_tgkill, HandlerFn.sys_ignore),
    (SYS_utimes, HandlerFn.sys_ignore),
    (SYS_waitid, HandlerFn.sys_ignore),
    (SYS_openat, HandlerFn.sys_openat),
    (SYS_mkdirat, HandlerFn.sys_mkdirat),
    (SYS_newfstatat, HandlerFn.sys_newfstatat),
    (SYS_unlinkat, HandlerFn.sys_unlinkat),
    (SYS_renameat, HandlerFn.sys_renameat),
    (SYS_readlinkat, HandlerFn.sys_readlinkat),
    (SYS_fchmodat, HandlerFn.sys_ignore),
    (SYS_faccessat, HandlerFn.sys_faccessat),
    (SYS_pselect6, HandlerFn.sys_ignore),
    (SYS_ppoll, HandlerFn.sys_ignore),
    (SYS_set_robust_list, HandlerFn.sys_ignore),
    (SYS_splice, HandlerFn.sys_splice),
    (SYS_utimensat, HandlerFn.sys_ignore),
    (SYS_epoll_pwait, HandlerFn.sys_ignore),
    (SYS_fallocate, HandlerFn.sys_fallocate),
    (SYS_eventfd2, HandlerFn.sys_eventfd2),
    (SYS_epoll_create1, HandlerFn.sys_ignore),
    (SYS_dup3, HandlerFn.sys_dup3),
    (SYS_pipe2, HandlerFn.sys_pipe2),
    (SYS_prlimit64, HandlerFn.sys_ignore),
    (SYS_sendmmsg, HandlerFn.sys_ignore),
    (SYS_getrandom, HandlerFn.sys_ignore) ]

/-- Number of elements of the array `kHandlers`: one more than the largest
designator. -/
def kSize : Nat := kEntries.foldl (fun n e => max n (e.1 + 1)) 0

/-- Initial value of slot `i` of `kHandlers`: the handler designated for `i` (the
last designator wins), null when there is none. -/
def kSlot (i : Nat) : Option HandlerFn :=
  (kEntries.reverse.find? (fun e => e.1 == i)).map (fun e => e.2)

/-- The array `kHandlers`. -/
def kHandlers : List (Option HandlerFn) := (List.range kSize).map kSlot

/-- Modelled from the spec: `class Trace` (`trace.h`, which `syscall.cpp` only
includes), the process registry of spec section 6: `GetTrace` returns the live
process state of a pid and `GetFileName` the name of an executable image. -/
structure Trace where
  procs : Int → Process
  fileNames : Nat → String

/-- Modelled from the spec: `Trace::GetTrace` (spec section 6). -/
def Trace.GetTrace (trace : Trace) (pid : Int) : Process := trace.procs pid

/-- Modelled from the spec: `Trace::GetFileName` (spec section 6). -/
def Trace.GetFileName (trace : Trace) (image : Nat) : String := trace.fileNames image

/-- The registry after the process of `pid` has been mutated in place to `p`. -/
def Trace.store (trace : Trace) (pid : Int) (p : Process) : Trace :=
  { trace with procs := fun k => if k = pid then p else trace.procs k }

/-- How a call of `Handle` ends: it returns, it throws, or it reads `kHandlers`
past the end of the array. -/
inductive Dispatch where
  | returned (trace : Trace)
  | raised (what : String) (trace : Trace)
  | outOfBounds

/-- Message of the exception `Handle` throws in place of a handler exception. -/
def wrapMessage (sno : Int) (uid : Nat) (image : String) (what : String) : String :=
  "Exception while handling syscall " ++ toString sno ++
  " in process " ++ toString uid ++ " (" ++
  image ++
  "): " ++
  what

/-- The dispatcher `Handle`. -/
def Handle (env : Env) (trace : Trace) (sno : Int) (args : Args) : Dispatch :=
  if sno < 0 then .returned trace
  else if sno.toNat > kHandlers.length then .returned trace
  else
    match kHandlers[sno.toNat]? with
    | none => .outOfBounds
    | some none => .returned trace
    | some (some handler) =>
      let proc := trace.GetTrace args.PID
      let out := handler.run env proc args
      let trace1 := trace.store args.PID out.proc
      match out.raised with
      | none => .returned trace1
      | some what =>
        .raised (wrapMessage sno out.proc.uid (trace.GetFileName out.proc.image) what) trace1

/-! ## Sample data -/

/-- A process state with the given cwd, an empty fd-table, empty effect sets and
empty sequences. -/
def emptyProcess (cwd : String) : Process :=
  { uid := 7, image := 0, cwd := cwd, fdTable := fun _ => none,
    inputs := [], outputs := [], touched := [],
    renames := [], links := [], removals := [] }

/-- A tracee whose memory holds a few path strings (every other string read
fails and yields the empty string) and the pipe buffer `[7, 8]`; every resolved
target is recorded and a missing fd is ignored. -/
def sampleEnv : Env :=
  { ReadString := fun _ addr =>
      if addr = 100 then "/tmp/a"
      else if addr = 200 then "sub/../f"
      else if addr = 300 then "x"
      else if addr = 400 then "./a"
      else if addr = 500 then "sub/.."
      else if addr = 600 then "f"
      else "",
    ReadBuffer := fun _ _ => some (7, 8),
    pipeTarget := "/proc/pipe",
    ignoreMissingFd := true,
    skipsTarget := fun _ => false }

/-- A registry in which every pid is a fresh process with cwd `/w`. -/
def sampleTrace : Trace :=
  { procs := fun _ => emptyProcess "/w", fileNames := fun _ => "/bin/true" }

/-- An event of pid 42 with the given return value and argument registers. -/
def mkArgs (ret : Int) (a0 a1 a2 a3 a4 a5 : Nat) : Args :=
  { PID := 42, Return := ret, a0 := a0, a1 := a1, a2 := a2, a3 := a3, a4 := a4, a5 := a5 }

/-! ## Predicates used in the statements -/

/-- The process states `p` and `q` differ at most in their fd-tables. -/
def Process.sameButFds (p q : Process) : Prop :=
  p.uid = q.uid ∧ p.image = q.image ∧ p.cwd = q.cwd ∧
  p.inputs = q.inputs ∧ p.outputs = q.outputs ∧ p.touched = q.touched ∧
  p.renames = q.renames ∧ p.links = q.links ∧ p.removals = q.removals

/-- The outcome `out` of a handler run on `p` threw nothing, binds `fd` to
`(target, flag)` and leaves every other fd-entry and everything outside the
fd-table as in `p`. -/
def Outcome.mapsFd (out : Outcome) (p : Process) (fd : Int) (target : String) (flag : Bool) :
    Prop :=
  out.raised = none ∧
  out.proc.fdTable fd = some ⟨target, flag⟩ ∧
  (∀ k, k ≠ fd → out.proc.fdTable k = p.fdTable k) ∧
  out.proc.sameButFds p

/-- The message of the exception a call of `Handle` ended with, if it threw. -/
def Dispatch.what : Dispatch → Option String
  | .returned _ => none
  | .raised what _ => some what
  | .outOfBounds => none

/-- The registry a call of `Handle` left behind, unless it read past the table. -/
def Dispatch.trace : Dispatch → Option Trace
  | .returned trace => some trace
  | .raised _ trace => some trace
  | .outOfBounds => none

/-- Invariant I-abs on one path: it is absolute, has no `.` or `..` component and
no empty segment, the root excepted. -/
def isCanonicalPath (path : String) : Bool :=
  path == "/" ||
    (isAbsolute path &&
      (segments path).tail.all (fun seg => seg != "" && seg != "." && seg != ".."))

/-! ## Theorems -/

/-- Claim C1 (failed-syscall rule): for every handler of the table other than
`sys_mmap` and `sys_dup3`, every process state and every argument vector with
`Return < 0`, the handler leaves the whole process state (fd-table, cwd, the
three effect sets and the rename, link and removal sequences) as it was. -/
theorem failed_syscall_frame (env : Env) (h : HandlerFn) (p : Process) (args : Args)
    (hm : h ≠ HandlerFn.sys_mmap) (hd : h ≠ HandlerFn.sys_dup3) (hret : args.Return < 0) :
    (h.run env p args).proc = p := by
  have hneg : ¬ (args.Return ≥ 0) := not_le.mpr hret
  cases h <;>
    first
    | exact absurd rfl hm
    | exact absurd rfl hd
    | (simp only [HandlerFn.run, sys_read, sys_write, sys_open, sys_close, sys_stat, sys_fstat,
        sys_lstat, sys_pread64, sys_readv, sys_writev, sys_access, sys_pipe, sys_dup, sys_dup2,
        sys_socket, sys_fcntl, sys_ftruncate, sys_getdents, sys_chdir, sys_fchdir, sys_rename,
        sys_mkdir, sys_rmdir, sys_link, sys_creat, sys_unlink, sys_symlink, sys_readlink,
        sys_utime, sys_linkat, sys_fsetxattr, sys_getxattr, sys_lgetxattr, sys_llistxattr,
        sys_flistxattr, sys_epoll_create, sys_getdents64, sys_openat, sys_mkdirat,
        sys_newfstatat, sys_renameat, sys_unlinkat, sys_readlinkat, sys_faccessat, sys_splice,
        sys_fallocate, sys_eventfd2, sys_pipe2, sys_ignore, if_neg hneg, Outcome.ok,
        Outcome.throw]
       repeat (first | rfl | split))

/-- Witness for C1: a failed `open` (return value -2) on a process with cwd `/w`. -/
theorem failed_syscall_frame_witness :
    (mkArgs (-2) 100 0 0 0 0 0).Return < 0 ∧
    (HandlerFn.sys_open.run sampleEnv (emptyProcess "/w") (mkArgs (-2) 100 0 0 0 0 0)).proc
      = emptyProcess "/w" :=
  ⟨by decide,
   failed_syscall_frame sampleEnv HandlerFn.sys_open (emptyProcess "/w")
     (mkArgs (-2) 100 0 0 0 0 0) (by decide) (by decide) (by decide)⟩

/-! ### The handler table -/

set_option maxRecDepth 100000 in
theorem kSize_eq : kSize = 319 := by decide

theorem kHandlers_length : kHandlers.length = 319 := by
  simp [kHandlers, kSize_eq]

theorem kHandlers_getElem? (i : Nat) :
    kHandlers[i]? = if i < 319 then some (kSlot i) else none := by
  unfold kHandlers
  rw [List.getElem?_map, kSize_eq]
  by_cases h : i < 319
  · rw [List.getElem?_range h, if_pos h]; rfl
  · rw [if_neg h, List.getElem?_eq_none (by simpa using h)]; rfl

/-- The dispatcher on a number below zero. -/
theorem Handle_neg (env : Env) (trace : Trace) (sno : Int) (args : Args) (h : sno < 0) :
    Handle env trace sno args = Dispatch.returned trace := by
  simp [Handle, h]

/-- The dispatcher on a number above the array length. -/
theorem Handle_above (env : Env) (trace : Trace) (sno : Int) (args : Args) (h : 319 < sno) :
    Handle env trace sno args = Dispatch.returned trace := by
  have h1 : ¬ sno < 0 := by omega
  have h2 : sno.toNat > kHandlers.length := by rw [kHandlers_length]; omega
  simp [Handle, h1, h2]

/-- The dispatcher on the array length itself: the guard lets it through and the
read `kHandlers[319]` is past the end of the array. -/
theorem Handle_at_length (env : Env) (trace : Trace) (args : Args) :
    Handle env trace 319 args = Dispatch.outOfBounds := by
  have h2 : ¬ (319 : Int).toNat > kHandlers.length := by rw [kHandlers_length]; decide
  have h3 : kHandlers[(319 : Int).toNat]? = none := by rw [kHandlers_getElem?]; decide
  simp only [Handle, h2, h3]
  simp

/-- The dispatcher on a number inside the array, by the content of its slot. -/
theorem Handle_slot (env : Env) (trace : Trace) (sno : Int) (args : Args)
    (h0 : 0 ≤ sno) (h1 : sno < 319) :
    Handle env trace sno args =
      match kSlot sno.toNat with
      | none => Dispatch.returned trace
      | some handler =>
        match (handler.run env (trace.GetTrace args.PID) args).raised with
        | none =>
          Dispatch.returned
            (trace.store args.PID (handler.run env (trace.GetTrace args.PID) args).proc)
        | some what =>
          Dispatch.raised
            (wrapMessage sno (handler.run env (trace.GetTrace args.PID) args).proc.uid
              (trace.GetFileName (handler.run env (trace.GetTrace args.PID) args).proc.image) what)
            (trace.store args.PID (handler.run env (trace.GetTrace args.PID) args).proc) := by
  have hn : ¬ sno < 0 := by omega
  have h2 : ¬ sno.toNat > kHandlers.length := by rw [kHandlers_length]; omega
  have h3 : kHandlers[sno.toNat]? = some (kSlot sno.toNat) := by
    rw [kHandlers_getElem?, if_pos (by omega)]
  simp only [Handle, hn, h2, h3, if_false]
  cases kSlot sno.toNat <;> rfl

/-- Claim C2, evaluated on the code: with fd 3 open on `/out`, the event
`writev(3, ..) = 10` adds `/out` to the inputs and leaves the outputs empty,
while `write(3, ..) = 10` on the same state adds `/out` to the outputs. -/
theorem sys_writev_records_input :
    (sys_writev sampleEnv ((emptyProcess "/").MapFd 3 "/out") (mkArgs 10 3 0 0 0 0 0)).proc.inputs
      = ["/out"] ∧
    (sys_writev sampleEnv ((emptyProcess "/").MapFd 3 "/out") (mkArgs 10 3 0 0 0 0 0)).proc.outputs
      = [] ∧
    (sys_write sampleEnv ((emptyProcess "/").MapFd 3 "/out") (mkArgs 10 3 0 0 0 0 0)).proc.outputs
      = ["/out"] := by
  refine ⟨?_, ?_, ?_⟩ <;> rfl

/-- Claim C3, evaluated on the code: with cwd `/w`, the event
`faccessat(AT_FDCWD, "f") = 0` adds `/w/f` to the inputs and leaves the touched
set empty, while `access("f") = 0` on the same state adds `/w/f` to the touched
set. -/
theorem sys_faccessat_records_input :
    (sys_faccessat sampleEnv (emptyProcess "/w")
        (mkArgs 0 18446744073709551516 600 0 0 0 0)).proc.inputs = ["/w/f"] ∧
    (sys_faccessat sampleEnv (emptyProcess "/w")
        (mkArgs 0 18446744073709551516 600 0 0 0 0)).proc.touched = [] ∧
    (sys_access sampleEnv (emptyProcess "/w") (mkArgs 0 600 0 0 0 0 0)).proc.touched
      = ["/w/f"] := by
  refine ⟨?_, ?_, ?_⟩ <;> rfl

/-- Claim C4, evaluated on the code: `SYS_epoll_create1` (291) is bound to
`sys_ignore`, so dispatching `epoll_create1(..) = 5` through `Handle` returns
with the registry unchanged and fd 5 stays absent from the fd-table, while the
same event under `SYS_epoll_create` (213) binds fd 5 to `/proc/42/epoll`. -/
theorem Handle_epoll_create1_ignored :
    kSlot SYS_epoll_create1 = some HandlerFn.sys_ignore ∧
    (∃ trace1, Handle sampleEnv sampleTrace 291 (mkArgs 5 0 0 0 0 0 0) = Dispatch.returned trace1 ∧
      (trace1.GetTrace 42).fdTable 5 = none) ∧
    (∃ trace1, Handle sampleEnv sampleTrace 213 (mkArgs 5 0 0 0 0 0 0) = Dispatch.returned trace1 ∧
      (trace1.GetTrace 42).fdTable 5 = some ⟨"/proc/42/epoll", false⟩) := by
  refine ⟨by decide,
    ⟨sampleTrace.store 42 (sampleTrace.GetTrace 42), ?_, rfl⟩,
    ⟨sampleTrace.store 42 ((sampleTrace.GetTrace 42).MapFd 5 "/proc/42/epoll"), ?_, rfl⟩⟩
  · rw [Handle_slot _ _ _ _ (by decide) (by decide)]
    have hs : kSlot (291 : Int).toNat = some HandlerFn.sys_ignore := by decide
    rw [hs]
    rfl
  · rw [Handle_slot _ _ _ _ (by decide) (by decide)]
    have hs : kSlot (213 : Int).toNat = some HandlerFn.sys_epoll_create := by decide
    rw [hs]
    rfl

/-! ### The fd-table -/

theorem setSlot_same (table : Int → Option FdEntry) (fd : Int) (slot : Option FdEntry) :
    setSlot table fd slot fd = slot := by
  simp [setSlot]

theorem setSlot_other (table : Int → Option FdEntry) (fd k : Int) (slot : Option FdEntry)
    (h : k ≠ fd) : setSlot table fd slot k = table k := by
  simp [setSlot, h]

theorem sameButFds_refl (p : Process) : p.sameButFds p :=
  ⟨rfl, rfl, rfl, rfl, rfl, rfl, rfl, rfl, rfl⟩

/-- `MapFd` followed by `SetCloseExec` on the same descriptor. -/
theorem mapFd_setCloseExec (p : Process) (fd : Int) (target : String) (flag : Bool) :
    (Outcome.ok ((p.MapFd fd target).SetCloseExec fd flag)).mapsFd p fd target flag := by
  have h : (p.MapFd fd target).fdTable fd = some ⟨target, false⟩ := setSlot_same _ _ _
  refine ⟨rfl, ?_, ?_, ?_⟩
  · simp only [Outcome.ok, Process.SetCloseExec, h]
    exact setSlot_same _ _ _
  · intro k hk
    simp only [Outcome.ok, Process.SetCloseExec, h]
    rw [setSlot_other _ _ _ _ hk]
    exact setSlot_other _ _ _ _ hk
  · simp only [Outcome.ok, Process.SetCloseExec, h]
    exact sameButFds_refl p

theorem toInt32_of_range (x : Int) (h0 : 0 ≤ x) (h1 : x < 2147483648) : toInt32 x = x := by
  unfold toInt32
  omega

/-! ### Machine integers -/

theorem mod_two_pow_and (n m k : Nat) (hm : m < 2 ^ k) : (n % 2 ^ k) &&& m = n &&& m := by
  apply Nat.eq_of_testBit_eq
  intro i
  rw [Nat.testBit_and, Nat.testBit_and, Nat.testBit_mod_two_pow]
  by_cases hi : i < k
  · simp [hi]
  · have hle : 2 ^ k ≤ 2 ^ i := Nat.pow_le_pow_right (by decide) (Nat.le_of_not_lt hi)
    have hf : m.testBit i = false := Nat.testBit_lt_two_pow (Nat.lt_of_lt_of_le hm hle)
    simp [hf]

theorem toInt32_emod (x : Int) : toInt32 x % 4294967296 = x % 4294967296 := by
  unfold toInt32
  omega

/-- The bit test on a register stored in a C `int` is the bit test on the
register itself, for a mask below `2^32`. -/
theorem intTest_intOf (n m : Nat) (hm : m < 2 ^ 32) : intTest (intOf n) m = (n &&& m != 0) := by
  unfold intTest intOf
  rw [toInt32_emod]
  have h : (Int.ofNat n % 4294967296).toNat = n % 2 ^ 32 := by
    have : (Int.ofNat n % 4294967296) = Int.ofNat (n % 4294967296) := by
      simp [Int.ofNat_eq_coe]
    rw [this]
    rfl
  rw [h, mod_two_pow_and n m 32 hm]

/-- The bit test on a `uint64_t` register, for a mask below `2^64`. -/
theorem u64Test_eq (n m : Nat) (hm : m < 2 ^ 64) : u64Test n m = (n &&& m != 0) := by
  unfold u64Test
  rw [show (18446744073709551616 : Nat) = 2 ^ 64 by norm_num, mod_two_pow_and n m 64 hm]

/-- Claim C5: for every process state and every `open`, `creat` or `openat` event
with `Return >= 0`, no exception is thrown and afterwards the fd-table binds the
descriptor `Return` (stored in a C `int`, hence `toInt32 Return`, which is
`Return` itself below `2^31`) to the normalised path (`open`/`creat`: path `a0`
against the cwd; `openat`: path `a1` against dirfd `a0`) with `close_on_exec`
equal to `(flags & O_CLOEXEC) != 0`, where `flags` is `a1` for `open`/`creat` and
`a2` for `openat`; every other fd-entry, the effect sets, the cwd and the
sequences are unchanged. -/
theorem open_creat_openat_map_fd (env : Env) (p : Process) (args : Args)
    (hret : args.Return ≥ 0) :
    (args.Return < 2147483648 → toInt32 args.Return = args.Return) ∧
    (sys_open env p args).mapsFd p (toInt32 args.Return)
      (normalize (env.ReadString args.PID args.a0) p.cwd) (args.a1 &&& O_CLOEXEC != 0) ∧
    (sys_creat env p args).mapsFd p (toInt32 args.Return)
      (normalize (env.ReadString args.PID args.a0) p.cwd) (args.a1 &&& O_CLOEXEC != 0) ∧
    (∀ path, p.NormaliseAt (intOf args.a0) (env.ReadString args.PID args.a1) = Except.ok path →
      (sys_openat env p args).mapsFd p (toInt32 args.Return) path
        (args.a2 &&& O_CLOEXEC != 0)) := by
  rw [← u64Test_eq args.a1 O_CLOEXEC (by decide), ← u64Test_eq args.a2 O_CLOEXEC (by decide)]
  refine ⟨fun h => toInt32_of_range _ hret h, ?_, ?_, ?_⟩
  · simp only [sys_open, if_pos hret]
    exact mapFd_setCloseExec _ _ _ _
  · simp only [sys_creat, if_pos hret]
    exact mapFd_setCloseExec _ _ _ _
  · intro path hp
    simp only [sys_openat, hp, if_pos hret]
    exact mapFd_setCloseExec _ _ _ _

/-- Witness for C5: with cwd `/w`, `open("/tmp/a", O_CLOEXEC) = 3`. -/
theorem open_creat_openat_map_fd_witness :
    (mkArgs 3 100 524288 0 0 0 0).Return ≥ 0 ∧
    (sys_open sampleEnv (emptyProcess "/w") (mkArgs 3 100 524288 0 0 0 0)).mapsFd
      (emptyProcess "/w") 3 "/tmp/a" true :=
  ⟨by decide,
   (open_creat_openat_map_fd sampleEnv (emptyProcess "/w") (mkArgs 3 100 524288 0 0 0 0)
     (by decide)).2.1⟩

/-- Claim C6 (mmap effect rule): for every process state and every `mmap` event,
whatever the sign of `Return`: when `fd` (`a4` as a C `int`) is `-1` or `Return`
is `MAP_ANON` nothing is recorded; otherwise exactly one effect is recorded on
`fd`, `AddOutput(fd)` when `(a3 & MAP_SHARED) != 0` and `(a2 & PROT_WRITE) != 0`
and `AddInput(fd)` otherwise.  For an open `fd` whose target the policy records
this adds the target to the outputs, respectively to the inputs, and changes
nothing else. -/
theorem sys_mmap_effect (env : Env) (p : Process) (args : Args) :
    ((intOf args.a4 = -1 ∨ args.Return = MAP_ANON) → sys_mmap env p args = Outcome.ok p) ∧
    (intOf args.a4 ≠ -1 → args.Return ≠ MAP_ANON →
      ((args.a3 &&& MAP_SHARED ≠ 0 ∧ args.a2 &&& PROT_WRITE ≠ 0) →
        sys_mmap env p args = p.AddOutputFd env (intOf args.a4) ∧
        ∀ e, p.fdTable (intOf args.a4) = some e → env.skipsTarget e.target = false →
          sys_mmap env p args = Outcome.ok { p with outputs := addPath p.outputs e.target }) ∧
      (¬ (args.a3 &&& MAP_SHARED ≠ 0 ∧ args.a2 &&& PROT_WRITE ≠ 0) →
        sys_mmap env p args = p.AddInputFd env (intOf args.a4) ∧
        ∀ e, p.fdTable (intOf args.a4) = some e → env.skipsTarget e.target = false →
          sys_mmap env p args = Outcome.ok { p with inputs := addPath p.inputs e.target })) := by
  have hs : intTest (intOf args.a3) MAP_SHARED = (args.a3 &&& MAP_SHARED != 0) :=
    intTest_intOf _ _ (by decide)
  have hw : intTest (intOf args.a2) PROT_WRITE = (args.a2 &&& PROT_WRITE != 0) :=
    intTest_intOf _ _ (by decide)
  refine ⟨?_, ?_⟩
  · intro h
    have : ¬ (args.Return ≠ MAP_ANON ∧ intOf args.a4 ≠ -1) := by
      rcases h with h | h
      · exact fun hc => hc.2 h
      · exact fun hc => hc.1 h
    simp only [sys_mmap, if_neg this]
  · intro hfd hr
    have hc : args.Return ≠ MAP_ANON ∧ intOf args.a4 ≠ -1 := ⟨hr, hfd⟩
    refine ⟨?_, ?_⟩
    · intro hb
      have hcond : (intTest (intOf args.a3) MAP_SHARED && intTest (intOf args.a2) PROT_WRITE)
          = true := by
        rw [hs, hw]
        simp [hb.1, hb.2]
      have heq : sys_mmap env p args = p.AddOutputFd env (intOf args.a4) := by
        simp only [sys_mmap, if_pos hc, hcond, if_true]
      refine ⟨heq, ?_⟩
      intro e he hk
      rw [heq]
      simp [Process.AddOutputFd, Process.effectTarget, he, hk, Process.AddOutput]
    · intro hb
      have hcond : (intTest (intOf args.a3) MAP_SHARED && intTest (intOf args.a2) PROT_WRITE)
          = false := by
        rw [hs, hw]
        by_contra hne
        apply hb
        simpa using hne
      have heq : sys_mmap env p args = p.AddInputFd env (intOf args.a4) := by
        simp [sys_mmap, hc, hcond]
      refine ⟨heq, ?_⟩
      intro e he hk
      rw [heq]
      simp [Process.AddInputFd, Process.effectTarget, he, hk, Process.AddInput]

/-- Witness for C6: a failed shared writable mapping of fd 3 (open on `/out`),
`mmap(0, 4096, PROT_WRITE, MAP_SHARED, 3, 0) = -12`, records `/out` as output. -/
theorem sys_mmap_effect_witness :
    intOf (mkArgs (-12) 0 4096 2 1 3 0).a4 ≠ -1 ∧
    (mkArgs (-12) 0 4096 2 1 3 0).Return ≠ MAP_ANON ∧
    sys_mmap sampleEnv ((emptyProcess "/").MapFd 3 "/out") (mkArgs (-12) 0 4096 2 1 3 0)
      = ((emptyProcess "/").MapFd 3 "/out").AddOutputFd sampleEnv 3 :=
  ⟨by decide, by decide,
   (((sys_mmap_effect sampleEnv ((emptyProcess "/").MapFd 3 "/out")
      (mkArgs (-12) 0 4096 2 1 3 0)).2 (by decide) (by decide)).1 ⟨by decide, by decide⟩).1⟩

/-- `SetCloseExec` on an open descriptor. -/
theorem setCloseExec_mapsFd (p : Process) (fd : Int) (flag : Bool) (e : FdEntry)
    (he : p.fdTable fd = some e) :
    (Outcome.ok (p.SetCloseExec fd flag)).mapsFd p fd e.target flag := by
  refine ⟨rfl, ?_, ?_, ?_⟩
  · simp only [Outcome.ok, Process.SetCloseExec, he]
    exact setSlot_same _ _ _
  · intro k hk
    simp only [Outcome.ok, Process.SetCloseExec, he]
    exact setSlot_other _ _ _ _ hk
  · simp only [Outcome.ok, Process.SetCloseExec, he]
    exact sameButFds_refl p

/-- `SetCloseExec` on an unknown descriptor is a no-op. -/
theorem setCloseExec_absent (p : Process) (fd : Int) (flag : Bool)
    (he : p.fdTable fd = none) : p.SetCloseExec fd flag = p := by
  simp only [Process.SetCloseExec, he]

/-- `DupFd` of an open descriptor into another slot. -/
theorem dupFd_mapsFd (p : Process) (src dst : Int) (e : FdEntry)
    (he : p.fdTable src = some e) (hne : src ≠ dst) :
    (Outcome.ok (p.DupFd src dst)).mapsFd p dst e.target false := by
  refine ⟨rfl, ?_, ?_, ?_⟩
  · simp only [Outcome.ok, Process.DupFd, if_neg hne, he]
    exact setSlot_same _ _ _
  · intro k hk
    simp only [Outcome.ok, Process.DupFd, if_neg hne, he]
    exact setSlot_other _ _ _ _ hk
  · simp only [Outcome.ok, Process.DupFd, if_neg hne, he]
    exact sameButFds_refl p

/-- `DupFd` followed by clearing the flag of the destination. -/
theorem dupFd_clear_mapsFd (p : Process) (src dst : Int) (e : FdEntry)
    (he : p.fdTable src = some e) :
    (Outcome.ok ((p.DupFd src dst).SetCloseExec dst false)).mapsFd p dst e.target false := by
  by_cases hne : src = dst
  · subst hne
    simp only [Process.DupFd, if_true]
    exact setCloseExec_mapsFd p src false e he
  · have h1 : (p.DupFd src dst).fdTable dst = some ⟨e.target, false⟩ := by
      simp only [Process.DupFd, if_neg hne, he]
      exact setSlot_same _ _ _
    refine ⟨rfl, ?_, ?_, ?_⟩
    · simp only [Outcome.ok, Process.SetCloseExec, h1]
      exact setSlot_same _ _ _
    · intro k hk
      simp only [Outcome.ok, Process.SetCloseExec, h1]
      rw [setSlot_other _ _ _ _ hk]
      simp only [Process.DupFd, if_neg hne, he]
      exact setSlot_other _ _ _ _ hk
    · simp only [Outcome.ok, Process.SetCloseExec, h1]
      simp only [Process.DupFd, if_neg hne, he]
      exact sameButFds_refl p

/-- Claim C7 (fcntl effects): for every process state and every `fcntl` event
with `Return >= 0`: with `F_DUPFD` or `F_DUPFD_CLOEXEC` and fd `a0` open, the
slot `Return` receives the target of fd `a0` and ends with
`close_on_exec = false` (for `F_DUPFD` the slot `Return` is a new one, distinct
from `a0`); with `F_SETFD` only the flag of fd `a0` changes and becomes
`(a2 & FD_CLOEXEC) != 0`; with `F_GETFD`, `F_GETFL`, `F_SETFL`, `F_GETLK`,
`F_SETLK`, `F_SETLKW`, `F_OFD_GETLK`, `F_OFD_SETLK` or `F_OFD_SETLKW` the state
is unchanged.  No exception is thrown in any of these cases. -/
theorem sys_fcntl_effects (env : Env) (p : Process) (args : Args) (hret : args.Return ≥ 0) :
    (∀ e, p.fdTable (intOf args.a0) = some e →
      (intOf args.a1 = F_DUPFD → toInt32 args.Return ≠ intOf args.a0 →
        (sys_fcntl env p args).mapsFd p (toInt32 args.Return) e.target false) ∧
      (intOf args.a1 = F_DUPFD_CLOEXEC →
        (sys_fcntl env p args).mapsFd p (toInt32 args.Return) e.target false)) ∧
    (intOf args.a1 = F_SETFD →
      sys_fcntl env p args
        = Outcome.ok (p.SetCloseExec (intOf args.a0) (args.a2 &&& FD_CLOEXEC != 0)) ∧
      (∀ e, p.fdTable (intOf args.a0) = some e →
        (sys_fcntl env p args).mapsFd p (intOf args.a0) e.target
          (args.a2 &&& FD_CLOEXEC != 0)) ∧
      (p.fdTable (intOf args.a0) = none → sys_fcntl env p args = Outcome.ok p)) ∧
    (intOf args.a1 ∈ [F_GETFD, F_GETFL, F_SETFL, F_GETLK, F_SETLK, F_SETLKW,
        F_OFD_GETLK, F_OFD_SETLK, F_OFD_SETLKW] →
      sys_fcntl env p args = Outcome.ok p) := by
  refine ⟨?_, ?_, ?_⟩
  · intro e he
    refine ⟨?_, ?_⟩
    · intro hc hne
      have : sys_fcntl env p args = Outcome.ok (p.DupFd (intOf args.a0) (toInt32 args.Return)) := by
        simp only [sys_fcntl, if_pos hret, hc, if_true]
      rw [this]
      exact dupFd_mapsFd p _ _ e he (fun h => hne h.symm)
    · intro hc
      have : sys_fcntl env p args = Outcome.ok
          ((p.DupFd (intOf args.a0) (toInt32 args.Return)).SetCloseExec
            (toInt32 args.Return) false) := by
        simp only [sys_fcntl, if_pos hret, hc]
        rfl
      rw [this]
      exact dupFd_clear_mapsFd p _ _ e he
  · intro hc
    have heq : sys_fcntl env p args
        = Outcome.ok (p.SetCloseExec (intOf args.a0) (args.a2 &&& FD_CLOEXEC != 0)) := by
      simp only [sys_fcntl, if_pos hret, hc]
      rw [intTest_intOf _ _ (by decide)]
      rfl
    refine ⟨heq, ?_, ?_⟩
    · intro e he
      rw [heq]
      exact setCloseExec_mapsFd p _ _ e he
    · intro he
      rw [heq, setCloseExec_absent p _ _ he]
  · intro hc
    simp only [List.mem_cons, List.mem_singleton, List.not_mem_nil, or_false] at hc
    rcases hc with hc | hc | hc | hc | hc | hc | hc | hc | hc <;>
      (simp only [sys_fcntl, if_pos hret, hc]; rfl)

/-- Witness for C7: with fd 3 open on `/out`, `fcntl(3, F_DUPFD_CLOEXEC, 0) = 4`
binds fd 4 to `/out` with `close_on_exec = false`. -/
theorem sys_fcntl_effects_witness :
    (mkArgs 4 3 1030 0 0 0 0).Return ≥ 0 ∧
    ((emptyProcess "/").MapFd 3 "/out").fdTable (intOf (mkArgs 4 3 1030 0 0 0 0).a0)
      = some ⟨"/out", false⟩ ∧
    intOf (mkArgs 4 3 1030 0 0 0 0).a1 = F_DUPFD_CLOEXEC ∧
    (sys_fcntl sampleEnv ((emptyProcess "/").MapFd 3 "/out") (mkArgs 4 3 1030 0 0 0 0)).mapsFd
      ((emptyProcess "/").MapFd 3 "/out") 4 "/out" false :=
  ⟨by decide, rfl, by decide,
   ((sys_fcntl_effects sampleEnv ((emptyProcess "/").MapFd 3 "/out") (mkArgs 4 3 1030 0 0 0 0)
      (by decide)).1 ⟨"/out", false⟩ rfl).2 (by decide)⟩

/-- Claim C8 (fcntl raises-iff): for every process state and every `fcntl` event,
the handler throws if and only if `Return >= 0` and `cmd` (`a1` as a C `int`) is
none of `F_DUPFD`, `F_DUPFD_CLOEXEC`, `F_SETFD`, `F_GETFD`, `F_GETFL`, `F_SETFL`,
`F_GETLK`, `F_SETLK`, `F_SETLKW`, `F_OFD_GETLK`, `F_OFD_SETLK`, `F_OFD_SETLKW`;
when it throws, the process state is unchanged and the message is
`Unknown fnctl (cmd = <cmd>)` with the command number in decimal. -/
theorem sys_fcntl_raises_iff (env : Env) (p : Process) (args : Args) :
    ((sys_fcntl env p args).raised ≠ none ↔
      (args.Return ≥ 0 ∧
        intOf args.a1 ∉ [F_DUPFD, F_DUPFD_CLOEXEC, F_SETFD, F_GETFD, F_GETFL, F_SETFL,
          F_GETLK, F_SETLK, F_SETLKW, F_OFD_GETLK, F_OFD_SETLK, F_OFD_SETLKW])) ∧
    ((sys_fcntl env p args).raised ≠ none →
      (sys_fcntl env p args).proc = p ∧
      (sys_fcntl env p args).raised
        = some ("Unknown fnctl (cmd = " ++ toString (intOf args.a1) ++ ")")) := by
  have key : (args.Return ≥ 0 ∧
        intOf args.a1 ∉ [F_DUPFD, F_DUPFD_CLOEXEC, F_SETFD, F_GETFD, F_GETFL, F_SETFL,
          F_GETLK, F_SETLK, F_SETLKW, F_OFD_GETLK, F_OFD_SETLK, F_OFD_SETLKW]) →
      sys_fcntl env p args = Outcome.throw (unknownFcntl (intOf args.a1)) p := by
    rintro ⟨hret, hc⟩
    simp only [List.mem_cons, List.mem_singleton, List.not_mem_nil, or_false, not_or] at hc
    obtain ⟨h1, h2, h3, h4, h5, h6, h7, h8, h9, h10, h11, h12⟩ := hc
    simp only [sys_fcntl, if_pos hret, h1, h2, h3, h4, h5, h6, h7, h8, h9, h10, h11, h12,
      if_false, or_self]
  have other : ¬ (args.Return ≥ 0 ∧
        intOf args.a1 ∉ [F_DUPFD, F_DUPFD_CLOEXEC, F_SETFD, F_GETFD, F_GETFL, F_SETFL,
          F_GETLK, F_SETLK, F_SETLKW, F_OFD_GETLK, F_OFD_SETLK, F_OFD_SETLKW]) →
      (sys_fcntl env p args).raised = none := by
    intro hn
    by_cases hret : args.Return ≥ 0
    · have hc : intOf args.a1 ∈ [F_DUPFD, F_DUPFD_CLOEXEC, F_SETFD, F_GETFD, F_GETFL, F_SETFL,
          F_GETLK, F_SETLK, F_SETLKW, F_OFD_GETLK, F_OFD_SETLK, F_OFD_SETLKW] := by
        by_contra hc
        exact hn ⟨hret, hc⟩
      simp only [List.mem_cons, List.mem_singleton, List.not_mem_nil, or_false] at hc
      rcases hc with hc | hc | hc | hc | hc | hc | hc | hc | hc | hc | hc | hc <;>
        (simp only [sys_fcntl, if_pos hret, hc]; rfl)
    · simp only [sys_fcntl, if_neg hret]
      rfl
  refine ⟨⟨?_, ?_⟩, ?_⟩
  · intro hr
    by_contra hn
    exact hr (other hn)
  · intro h
    rw [key h]
    simp [Outcome.throw]
  · intro hr
    have h : (args.Return ≥ 0 ∧
        intOf args.a1 ∉ [F_DUPFD, F_DUPFD_CLOEXEC, F_SETFD, F_GETFD, F_GETFL, F_SETFL,
          F_GETLK, F_SETLK, F_SETLKW, F_OFD_GETLK, F_OFD_SETLK, F_OFD_SETLKW]) := by
      by_contra hn
      exact hr (other hn)
    rw [key h]
    exact ⟨rfl, rfl⟩

/-- Witness for C8: `fcntl(3, 99, 0) = 0` throws `Unknown fnctl (cmd = 99)` and
leaves the state as it was. -/
theorem sys_fcntl_raises_iff_witness :
    (sys_fcntl sampleEnv (emptyProcess "/") (mkArgs 0 3 99 0 0 0 0)).raised ≠ none ∧
    (sys_fcntl sampleEnv (emptyProcess "/") (mkArgs 0 3 99 0 0 0 0)).proc = emptyProcess "/" ∧
    (sys_fcntl sampleEnv (emptyProcess "/") (mkArgs 0 3 99 0 0 0 0)).raised
      = some "Unknown fnctl (cmd = 99)" :=
  ⟨by decide,
   (sys_fcntl_raises_iff sampleEnv (emptyProcess "/") (mkArgs 0 3 99 0 0 0 0)).2 (by decide)⟩

/-- Claim C9: for every process state and every argument vector, whatever the
return value, `flistxattr` and `splice` throw the error `not implemented` and
leave the process state unchanged. -/
theorem flistxattr_splice_not_implemented (env : Env) (p : Process) (args : Args) :
    (sys_flistxattr env p args).raised = some "not implemented" ∧
    (sys_flistxattr env p args).proc = p ∧
    (sys_splice env p args).raised = some "not implemented" ∧
    (sys_splice env p args).proc = p :=
  ⟨rfl, rfl, rfl, rfl⟩

theorem setCloseExec_identity (p : Process) (fd : Int) (flag : Bool) :
    (p.SetCloseExec fd flag).uid = p.uid ∧ (p.SetCloseExec fd flag).image = p.image := by
  unfold Process.SetCloseExec
  split <;> exact ⟨rfl, rfl⟩

theorem dupFd_identity (p : Process) (src dst : Int) :
    (p.DupFd src dst).uid = p.uid ∧ (p.DupFd src dst).image = p.image := by
  unfold Process.DupFd
  split
  · exact ⟨rfl, rfl⟩
  · split <;> exact ⟨rfl, rfl⟩

theorem sys_fcntl_identity (env : Env) (p : Process) (args : Args) :
    (sys_fcntl env p args).proc.uid = p.uid ∧ (sys_fcntl env p args).proc.image = p.image := by
  unfold sys_fcntl
  generalize intOf args.a1 = cmd
  generalize intOf args.a0 = fd
  generalize toInt32 args.Return = ret
  simp only []
  split_ifs
  · exact dupFd_identity _ _ _
  · exact ⟨(setCloseExec_identity _ _ _).1.trans (dupFd_identity _ _ _).1,
      (setCloseExec_identity _ _ _).2.trans (dupFd_identity _ _ _).2⟩
  · exact setCloseExec_identity _ _ _
  all_goals exact ⟨rfl, rfl⟩

/-- No handler changes the uid or the executable image of the process. -/
theorem run_preserves_identity (env : Env) (h : HandlerFn) (p : Process) (args : Args) :
    (h.run env p args).proc.uid = p.uid ∧ (h.run env p args).proc.image = p.image := by
  cases h
  case sys_fcntl => exact sys_fcntl_identity env p args
  all_goals
    simp only [HandlerFn.run, sys_read, sys_write, sys_open, sys_close, sys_stat, sys_fstat,
        sys_lstat, sys_mmap, sys_pread64, sys_readv, sys_writev, sys_access, sys_pipe, sys_dup,
        sys_dup2, sys_socket, sys_ftruncate, sys_getdents, sys_chdir, sys_fchdir,
        sys_rename, sys_mkdir, sys_rmdir, sys_link, sys_creat, sys_unlink, sys_symlink,
        sys_readlink, sys_utime, sys_linkat, sys_fsetxattr, sys_getxattr, sys_lgetxattr,
        sys_llistxattr, sys_flistxattr, sys_epoll_create, sys_getdents64, sys_openat,
        sys_mkdirat, sys_newfstatat, sys_renameat, sys_unlinkat, sys_readlinkat, sys_faccessat,
        sys_splice, sys_fallocate, sys_eventfd2, sys_dup3, sys_pipe2, sys_ignore,
        Process.AddInputFd, Process.AddOutputFd, Process.AddTouchedFd, Process.Pipe,
        Process.MapFd, Process.SetCloseExec, Process.DupFd, Process.CloseFd, Process.SetCwd,
        Process.AddInput, Process.AddOutput, Process.AddTouched, Process.Rename, Process.Link,
        Process.Remove, Outcome.ok, Outcome.throw]
  all_goals (repeat' split)
  all_goals first | exact ⟨rfl, rfl⟩ | simp

/-- Claim C10 (dispatcher error wrapping): for every syscall number whose slot of
`kHandlers` holds a handler and every event, `Handle` throws if and only if the
selected handler throws; the message it throws is
`Exception while handling syscall <sno> in process <uid> (<image>): <inner>`
with the syscall number, the uid of the process, the file name of its
executable image and the message of the handler; in either case the registry
holds the process state the handler left. -/
theorem Handle_wraps_handler_error (env : Env) (trace : Trace) (sno : Int) (args : Args)
    (handler : HandlerFn) (h0 : 0 ≤ sno) (hs : kHandlers[sno.toNat]? = some (some handler)) :
    ((Handle env trace sno args).what ≠ none ↔
      (handler.run env (trace.GetTrace args.PID) args).raised ≠ none) ∧
    (Handle env trace sno args).what =
      (handler.run env (trace.GetTrace args.PID) args).raised.map (fun inner =>
        "Exception while handling syscall " ++ toString sno ++
        " in process " ++ toString (trace.GetTrace args.PID).uid ++
        " (" ++ trace.GetFileName (trace.GetTrace args.PID).image ++ "): " ++ inner) ∧
    (Handle env trace sno args).trace =
      some (trace.store args.PID (handler.run env (trace.GetTrace args.PID) args).proc) := by
  have hlt : sno < 319 := by
    rw [kHandlers_getElem?] at hs
    by_cases h : sno.toNat < 319
    · omega
    · rw [if_neg h] at hs
      exact absurd hs (by simp)
  have hslot : kSlot sno.toNat = some handler := by
    rw [kHandlers_getElem?, if_pos (by omega)] at hs
    exact Option.some.inj hs
  have hid := run_preserves_identity env handler (trace.GetTrace args.PID) args
  rw [Handle_slot env trace sno args h0 hlt, hslot]
  simp only []
  cases hr : (handler.run env (trace.GetTrace args.PID) args).raised with
  | none => simp [Dispatch.what, Dispatch.trace]
  | some inner =>
    simp only [Dispatch.what, Dispatch.trace, Option.map, wrapMessage, hid.1, hid.2]
    simp

/-- Witness for C10: `splice` (number 275) in the process of pid 42, uid 7, image
`/bin/true`. -/
theorem Handle_wraps_handler_error_witness :
    (0 : Int) ≤ 275 ∧
    kHandlers[(275 : Int).toNat]? = some (some HandlerFn.sys_splice) ∧
    (Handle sampleEnv sampleTrace 275 (mkArgs 0 0 0 0 0 0 0)).what =
      some "Exception while handling syscall 275 in process 7 (/bin/true): not implemented" :=
  ⟨by decide, by rw [kHandlers_getElem?]; decide,
   (Handle_wraps_handler_error sampleEnv sampleTrace 275 (mkArgs 0 0 0 0 0 0 0)
      HandlerFn.sys_splice (by decide) (by rw [kHandlers_getElem?]; decide)).2.1⟩

/-- A number without a handler, other than the array length itself, is ignored:
`Handle` returns and the registry is the one it was given. -/
theorem Handle_unknown_returns (env : Env) (trace : Trace) (sno : Int) (args : Args)
    (h319 : sno ≠ 319)
    (hnone : sno < 0 ∨ 319 < sno ∨ kSlot sno.toNat = none) :
    Handle env trace sno args = Dispatch.returned trace := by
  rcases hnone with h | h | h
  · exact Handle_neg env trace sno args h
  · exact Handle_above env trace sno args h
  · by_cases hneg : sno < 0
    · exact Handle_neg env trace sno args hneg
    · by_cases habove : 319 < sno
      · exact Handle_above env trace sno args habove
      · rw [Handle_slot env trace sno args (by omega) (by omega), h]

/-- A number bound to `sys_ignore`: `Handle` returns and every process of the
registry is as before. -/
theorem Handle_ignore_returns (env : Env) (trace : Trace) (sno : Int) (args : Args)
    (h0 : 0 ≤ sno) (h1 : sno < 319) (hs : kSlot sno.toNat = some HandlerFn.sys_ignore) :
    ∃ trace1, Handle env trace sno args = Dispatch.returned trace1 ∧
      trace1.fileNames = trace.fileNames ∧ ∀ pid, trace1.GetTrace pid = trace.GetTrace pid := by
  refine ⟨trace.store args.PID (trace.GetTrace args.PID), ?_, rfl, ?_⟩
  · rw [Handle_slot env trace sno args h0 h1, hs]
    rfl
  · intro pid
    simp only [Trace.store, Trace.GetTrace]
    split
    · next h => rw [h]
    · rfl

/-- Claim C11, evaluated on the code: the number 319 (`SYS_getrandom + 1`, the
length of `kHandlers`) has no handler, yet `Handle` does not return on it: the
guard `sno > 319` is false and the slot `kHandlers[319]`, one past the end of
the array, is read. -/
theorem Handle_length_not_ignored :
    kHandlers.length = 319 ∧
    Handle sampleEnv sampleTrace 319 (mkArgs 0 0 0 0 0 0 0) = Dispatch.outOfBounds ∧
    Handle sampleEnv sampleTrace 319 (mkArgs 0 0 0 0 0 0 0) ≠ Dispatch.returned sampleTrace := by
  refine ⟨kHandlers_length, Handle_at_length _ _ _, ?_⟩
  rw [Handle_at_length]
  exact fun h => Dispatch.noConfusion h

/-- Claim C12 (dup3): for every process state and every `dup3` event no exception
is thrown; `DupFd(a0, a1)` is applied only when `Return >= 0`, while
`SetCloseExec(a1, (a2 & O_CLOEXEC) != 0)` is applied for every return value; in
particular a failed `dup3` whose `a1` is open overwrites the `close_on_exec`
flag of that entry and changes nothing else. -/
theorem sys_dup3_effect (env : Env) (p : Process) (args : Args) :
    (sys_dup3 env p args).raised = none ∧
    (args.Return ≥ 0 →
      (sys_dup3 env p args).proc =
        (p.DupFd (intOf args.a0) (intOf args.a1)).SetCloseExec (intOf args.a1)
          (args.a2 &&& O_CLOEXEC != 0)) ∧
    (args.Return < 0 →
      (sys_dup3 env p args).proc =
        p.SetCloseExec (intOf args.a1) (args.a2 &&& O_CLOEXEC != 0) ∧
      ∀ e, p.fdTable (intOf args.a1) = some e →
        (sys_dup3 env p args).mapsFd p (intOf args.a1) e.target
          (args.a2 &&& O_CLOEXEC != 0)) := by
  have hb : intTest (intOf args.a2) O_CLOEXEC = (args.a2 &&& O_CLOEXEC != 0) :=
    intTest_intOf _ _ (by decide)
  refine ⟨rfl, ?_, ?_⟩
  · intro hret
    simp only [sys_dup3, if_pos hret, hb, Outcome.ok]
  · intro hret
    have hneg : ¬ args.Return ≥ 0 := not_le.mpr hret
    have heq : sys_dup3 env p args
        = Outcome.ok (p.SetCloseExec (intOf args.a1) (args.a2 &&& O_CLOEXEC != 0)) := by
      simp only [sys_dup3, if_neg hneg, hb]
    refine ⟨by rw [heq]; rfl, ?_⟩
    intro e he
    rw [heq]
    exact setCloseExec_mapsFd p _ _ e he

/-- Witness for C12: with fd 4 open on `/out`, the failed event
`dup3(3, 4, O_CLOEXEC) = -9` sets `close_on_exec` of fd 4. -/
theorem sys_dup3_effect_witness :
    (mkArgs (-9) 3 4 524288 0 0 0).Return < 0 ∧
    ((emptyProcess "/").MapFd 4 "/out").fdTable (intOf (mkArgs (-9) 3 4 524288 0 0 0).a1)
      = some ⟨"/out", false⟩ ∧
    (sys_dup3 sampleEnv ((emptyProcess "/").MapFd 4 "/out") (mkArgs (-9) 3 4 524288 0 0 0)).mapsFd
      ((emptyProcess "/").MapFd 4 "/out") 4 "/out" true :=
  ⟨by decide, rfl,
   ((sys_dup3_effect sampleEnv ((emptyProcess "/").MapFd 4 "/out")
      (mkArgs (-9) 3 4 524288 0 0 0)).2.2 (by decide)).2 ⟨"/out", false⟩ rfl⟩

/-! ### Path resolution -/

/-- Resolution against `AT_FDCWD` is resolution against the cwd. -/
theorem normaliseAt_fdcwd (p : Process) (path : String) :
    p.NormaliseAt AT_FDCWD path = Except.ok (p.Normalise path) := by
  unfold Process.NormaliseAt Process.Normalise
  split <;> simp

/-- Claim C13 (AT_FDCWD equivalence): for every process state, every event and
every return value, each of `openat`, `mkdirat`, `newfstatat`, `unlinkat`,
`readlinkat`, `renameat` and `linkat` whose dirfd arguments are all `AT_FDCWD`
has exactly the outcome of its counterpart `open`, `mkdir`, `stat`, `unlink`,
`readlink`, `rename`, `link` on the same path strings (the same tracee
addresses), flags and return value. -/
theorem at_fdcwd_equivalence (env : Env) (p : Process) (args : Args)
    (h0 : intOf args.a0 = AT_FDCWD) :
    sys_openat env p args = sys_open env p { args with a0 := args.a1, a1 := args.a2 } ∧
    sys_mkdirat env p args = sys_mkdir env p { args with a0 := args.a1 } ∧
    sys_newfstatat env p args = sys_stat env p { args with a0 := args.a1 } ∧
    sys_unlinkat env p args = sys_unlink env p { args with a0 := args.a1 } ∧
    sys_readlinkat env p args = sys_readlink env p { args with a0 := args.a1 } ∧
    (intOf args.a2 = AT_FDCWD →
      sys_renameat env p args = sys_rename env p { args with a0 := args.a1, a1 := args.a3 } ∧
      sys_linkat env p args = sys_link env p { args with a0 := args.a1, a1 := args.a3 }) := by
  refine ⟨?_, ?_, ?_, ?_, ?_, ?_⟩
  · simp only [sys_openat, sys_open, h0, normaliseAt_fdcwd]
  · simp only [sys_mkdirat, sys_mkdir, h0, normaliseAt_fdcwd]
  · simp only [sys_newfstatat, sys_stat, h0, normaliseAt_fdcwd]
  · simp only [sys_unlinkat, sys_unlink, h0, normaliseAt_fdcwd]
  · simp only [sys_readlinkat, sys_readlink, h0, normaliseAt_fdcwd]
  · intro h2
    refine ⟨?_, ?_⟩
    · simp only [sys_renameat, sys_rename, h0, h2, normaliseAt_fdcwd]
    · simp only [sys_linkat, sys_link, h0, h2, normaliseAt_fdcwd]

/-- Witness for C13: cwd `/w`, `openat(-100, "sub/../f", 0) = 5` gives
`fd_table[5].target = "/w/f"`, as `open("sub/../f", 0) = 5` does. -/
theorem at_fdcwd_equivalence_witness :
    intOf (mkArgs 5 18446744073709551516 200 0 0 0 0).a0 = AT_FDCWD ∧
    sys_openat sampleEnv (emptyProcess "/w") (mkArgs 5 18446744073709551516 200 0 0 0 0)
      = sys_open sampleEnv (emptyProcess "/w") (mkArgs 5 200 0 0 0 0 0) ∧
    (sys_openat sampleEnv (emptyProcess "/w")
      (mkArgs 5 18446744073709551516 200 0 0 0 0)).proc.fdTable 5 = some ⟨"/w/f", false⟩ :=
  ⟨by decide,
   (at_fdcwd_equivalence sampleEnv (emptyProcess "/w")
      (mkArgs 5 18446744073709551516 200 0 0 0 0) (by decide)).1,
   rfl⟩

/-- Claim C14 (symlink self-loop): for every process state and every `symlink`
event with `Return >= 0`, with `parent` the normalised parent of the raw
destination, `srcPath` the raw source resolved against `parent` and `dstPath`
the file name of the raw destination appended to `parent`: if
`srcPath = dstPath` the state (the links sequence and all effect sets) is
unchanged, otherwise the handler applies `Link(srcPath, dstPath)`, which appends
exactly the entry `(srcPath, dstPath)` to the links. -/
theorem sys_symlink_self_loop (env : Env) (p : Process) (args : Args)
    (hret : args.Return ≥ 0) :
    (normalize (env.ReadString args.PID args.a0)
        (normalize (parent_path (env.ReadString args.PID args.a1)) p.cwd)
      = pathAppend (normalize (parent_path (env.ReadString args.PID args.a1)) p.cwd)
          (filename (env.ReadString args.PID args.a1)) →
      sys_symlink env p args = Outcome.ok p) ∧
    (normalize (env.ReadString args.PID args.a0)
        (normalize (parent_path (env.ReadString args.PID args.a1)) p.cwd)
      ≠ pathAppend (normalize (parent_path (env.ReadString args.PID args.a1)) p.cwd)
          (filename (env.ReadString args.PID args.a1)) →
      sys_symlink env p args =
        Outcome.ok (p.Link
          (normalize (env.ReadString args.PID args.a0)
            (normalize (parent_path (env.ReadString args.PID args.a1)) p.cwd))
          (pathAppend (normalize (parent_path (env.ReadString args.PID args.a1)) p.cwd)
            (filename (env.ReadString args.PID args.a1)))) ∧
      (sys_symlink env p args).proc.links =
        p.links ++
          [(normalize (env.ReadString args.PID args.a0)
              (normalize (parent_path (env.ReadString args.PID args.a1)) p.cwd),
            pathAppend (normalize (parent_path (env.ReadString args.PID args.a1)) p.cwd)
              (filename (env.ReadString args.PID args.a1)))]) := by
  refine ⟨?_, ?_⟩
  · intro h
    simp only [sys_symlink, if_pos hret, Process.Normalise, Process.NormaliseIn, ne_eq, h,
      not_true_eq_false, if_false]
  · intro h
    have heq : sys_symlink env p args =
        Outcome.ok (p.Link
          (normalize (env.ReadString args.PID args.a0)
            (normalize (parent_path (env.ReadString args.PID args.a1)) p.cwd))
          (pathAppend (normalize (parent_path (env.ReadString args.PID args.a1)) p.cwd)
            (filename (env.ReadString args.PID args.a1)))) := by
      simp only [sys_symlink, if_pos hret, Process.Normalise, Process.NormaliseIn, ne_eq, h,
        not_false_eq_true, if_true]
    exact ⟨heq, by rw [heq]; rfl⟩

/-- Witness for C14: cwd `/`, `symlink("./a", "./a") = 0` leaves the links
empty. -/
theorem sys_symlink_self_loop_witness :
    (mkArgs 0 400 400 0 0 0 0).Return ≥ 0 ∧
    normalize "./a" (normalize (parent_path "./a") "/")
      = pathAppend (normalize (parent_path "./a") "/") (filename "./a") ∧
    sys_symlink sampleEnv (emptyProcess "/") (mkArgs 0 400 400 0 0 0 0)
      = Outcome.ok (emptyProcess "/") ∧
    (sys_symlink sampleEnv (emptyProcess "/") (mkArgs 0 400 400 0 0 0 0)).proc.links = [] :=
  ⟨by decide, by decide,
   (sys_symlink_self_loop sampleEnv (emptyProcess "/") (mkArgs 0 400 400 0 0 0 0)
      (by decide)).1 (by decide),
   rfl⟩

/-- Claim C15, evaluated on the code: from a process with cwd `/w`, an empty
fd-table and empty effect sets, the event `getxattr("sub/..") = 0` records the
input `/w/sub/..`, which has a `..` component, while `lgetxattr("sub/..") = 0`
records `/w`. -/
theorem sys_getxattr_records_dotdot :
    (sys_getxattr sampleEnv (emptyProcess "/w") (mkArgs 0 500 0 0 0 0 0)).proc.inputs
      = ["/w/sub/.."] ∧
    isCanonicalPath "/w/sub/.." = false ∧
    (sys_lgetxattr sampleEnv (emptyProcess "/w") (mkArgs 0 500 0 0 0 0 0)).proc.inputs
      = ["/w"] ∧
    isCanonicalPath "/w" = true := by
  refine ⟨rfl, by decide, rfl, by decide⟩

/-! ### Relative paths -/

theorem head?_of_initial {l₁ l₂ : List Char} (h : l₁ <+: l₂) (hne : l₁ ≠ []) :
    l₂.head? = l₁.head? := by
  obtain ⟨t, rfl⟩ := h
  cases l₁ with
  | nil => exact absurd rfl hne
  | cons a l => rfl

theorem reverse_dropWhile_initial (l : List Char) (f : Char → Bool) :
    (l.reverse.dropWhile f).reverse <+: l := by
  have h : l.reverse.dropWhile f <:+ l.reverse := List.dropWhile_suffix f
  have := List.reverse_prefix.mpr h
  simpa using this

/-- The parent of a relative path is relative. -/
theorem parent_path_relative (path : String) (h : isAbsolute path = false) :
    isAbsolute (parent_path path) = false := by
  unfold parent_path
  simp only []
  split
  · rfl
  · next hupto =>
    split
    · next hstripped =>
      split
      · rfl
      · -- the part up to the last separator consists of separators only
        exfalso
        have hpre := reverse_dropWhile_initial path.data (fun c => c != '/')
        have hne : (List.dropWhile (fun c => c != '/') path.data.reverse).reverse ≠ [] := by
          simpa using hupto
        have hhead := head?_of_initial hpre hne
        have hall : ∀ c ∈ List.dropWhile (fun c => c != '/') path.data.reverse, c = '/' := by
          intro c hc
          by_contra hcn
          have : List.dropWhile (fun c => c == '/')
              (List.dropWhile (fun c => c != '/') path.data.reverse) ≠ [] := by
            intro hnil
            rw [List.dropWhile_eq_nil_iff] at hnil
            exact hcn (by simpa using hnil c hc)
          exact this hstripped
        have hslash : (List.dropWhile (fun c => c != '/') path.data.reverse).reverse.head?
            = some '/' := by
          cases hr : (List.dropWhile (fun c => c != '/') path.data.reverse).reverse with
          | nil => exact absurd hr hne
          | cons a l =>
            have ha : a ∈ List.dropWhile (fun c => c != '/') path.data.reverse := by
              have : a ∈ (List.dropWhile (fun c => c != '/') path.data.reverse).reverse := by
                rw [hr]; exact List.mem_cons_self _ _
              simpa using this
            rw [hall a ha]
            rfl
        unfold isAbsolute at h
        rw [hhead, hslash] at h
        simp at h
    · next hstripped =>
      have hpre1 : (List.dropWhile (fun c => c == '/')
          (List.dropWhile (fun c => c != '/') path.data.reverse)).reverse
            <+: (List.dropWhile (fun c => c != '/') path.data.reverse).reverse := by
        have h1 : List.dropWhile (fun c => c == '/')
            (List.dropWhile (fun c => c != '/') path.data.reverse)
              <:+ List.dropWhile (fun c => c != '/') path.data.reverse :=
          List.dropWhile_suffix _
        exact List.reverse_prefix.mpr h1
      have hpre := hpre1.trans (reverse_dropWhile_initial path.data (fun c => c != '/'))
      have hne : (List.dropWhile (fun c => c == '/')
          (List.dropWhile (fun c => c != '/') path.data.reverse)).reverse ≠ [] := by
        simpa using hstripped
      have hhead := head?_of_initial hpre hne
      unfold isAbsolute at h ⊢
      simp only []
      rw [← hhead]
      exact h

/-- Resolution of a relative path against a dirfd that is neither `AT_FDCWD` nor
in the fd-table fails with the error of `GetFd`. -/
theorem normaliseAt_unknown (p : Process) (dirfd : Int) (path : String)
    (hrel : isAbsolute path = false) (hcwd : dirfd ≠ AT_FDCWD) (hfd : p.fdTable dirfd = none) :
    p.NormaliseAt dirfd path = Except.error (unknownFd dirfd) := by
  simp [Process.NormaliseAt, hrel, hcwd, Process.GetFd, hfd]

/-- Claim C16, counterexample: with fd 7 absent from the fd-table, the failed
event `openat(7, "f", 0) = -9` makes `sys_openat` throw. -/
theorem sys_openat_unknown_dirfd_throws :
    (emptyProcess "/w").fdTable (intOf 7) = none ∧
    intOf 7 ≠ AT_FDCWD ∧
    isAbsolute (sampleEnv.ReadString 42 600) = false ∧
    (sys_openat sampleEnv (emptyProcess "/w") (mkArgs (-9) 7 600 0 0 0 0)).raised
      = some "Unknown file descriptor: 7" := by
  refine ⟨rfl, by decide, by decide, rfl⟩

/-- Claim C16, amended: for every process state and every `openat`, `mkdirat`,
`newfstatat`, `unlinkat`, `renameat`, `readlinkat`, `faccessat` or `linkat`
event with a relative path whose dirfd is neither `AT_FDCWD` nor present in the
fd-table, for every return value the process state is left unchanged and no path
is fabricated, but the handler throws the unknown-descriptor error of the dirfd
lookup (`linkat`, which resolves its paths only after the test of the return
value, throws it when `Return >= 0` and returns normally when `Return < 0`). -/
theorem unknown_dirfd_throws (env : Env) (p : Process) (args : Args) :
    (isAbsolute (env.ReadString args.PID args.a1) = false →
      intOf args.a0 ≠ AT_FDCWD → p.fdTable (intOf args.a0) = none →
      (∀ h ∈ [HandlerFn.sys_openat, HandlerFn.sys_mkdirat, HandlerFn.sys_newfstatat,
          HandlerFn.sys_unlinkat, HandlerFn.sys_renameat, HandlerFn.sys_readlinkat,
          HandlerFn.sys_faccessat],
        h.run env p args = Outcome.throw (unknownFd (intOf args.a0)) p) ∧
      (args.Return ≥ 0 →
        sys_linkat env p args = Outcome.throw (unknownFd (intOf args.a0)) p)) ∧
    (isAbsolute (env.ReadString args.PID args.a3) = false →
      intOf args.a2 ≠ AT_FDCWD → p.fdTable (intOf args.a2) = none →
      (sys_renameat env p args).raised ≠ none ∧ (sys_renameat env p args).proc = p ∧
      (args.Return ≥ 0 →
        (sys_linkat env p args).raised ≠ none ∧ (sys_linkat env p args).proc = p)) ∧
    (args.Return < 0 → sys_linkat env p args = Outcome.ok p) := by
  refine ⟨?_, ?_, ?_⟩
  · intro hrel hcwd hfd
    have hn := normaliseAt_unknown p _ _ hrel hcwd hfd
    refine ⟨?_, ?_⟩
    · intro h hmem
      simp only [List.mem_cons, List.mem_singleton, List.not_mem_nil, or_false] at hmem
      rcases hmem with rfl | rfl | rfl | rfl | rfl | rfl | rfl <;>
        simp only [HandlerFn.run, sys_openat, sys_mkdirat, sys_newfstatat, sys_unlinkat,
          sys_renameat, sys_readlinkat, sys_faccessat, hn]
    · intro hret
      simp only [sys_linkat, if_pos hret, hn]
  · intro hrel hcwd hfd
    have hn := normaliseAt_unknown p _ _ hrel hcwd hfd
    have hnp := normaliseAt_unknown p _ _ (parent_path_relative _ hrel) hcwd hfd
    refine ⟨?_, ?_, ?_⟩
    · simp only [sys_renameat, hn]
      split <;> simp [Outcome.throw]
    · simp only [sys_renameat, hn]
      split <;> rfl
    · intro hret
      simp only [sys_linkat, if_pos hret, hnp]
      split <;> simp [Outcome.throw]
  · intro hret
    simp only [sys_linkat, if_neg (not_le.mpr hret)]

/-- Witness for C16 as amended: `openat(7, "f", 0) = -9` with fd 7 unknown throws
and leaves the process state as it was. -/
theorem unknown_dirfd_throws_witness :
    isAbsolute (sampleEnv.ReadString (mkArgs (-9) 7 600 0 0 0 0).PID
      (mkArgs (-9) 7 600 0 0 0 0).a1) = false ∧
    intOf (mkArgs (-9) 7 600 0 0 0 0).a0 ≠ AT_FDCWD ∧
    (emptyProcess "/w").fdTable (intOf (mkArgs (-9) 7 600 0 0 0 0).a0) = none ∧
    HandlerFn.sys_openat.run sampleEnv (emptyProcess "/w") (mkArgs (-9) 7 600 0 0 0 0)
      = Outcome.throw (unknownFd 7) (emptyProcess "/w") :=
  ⟨by decide, by decide, rfl,
   ((unknown_dirfd_throws sampleEnv (emptyProcess "/w") (mkArgs (-9) 7 600 0 0 0 0)).1
      (by decide) (by decide) rfl).1 HandlerFn.sys_openat (by simp)⟩

/-- Claim C18 (dup2(a, a) preserves close_on_exec): for every process state in
which fd `a` is open, with either value of its `close_on_exec` flag, the event
`dup2(a, a) = a` leaves the entry of `a` and the rest of the state unchanged and
throws nothing. -/
theorem sys_dup2_same_fd (env : Env) (p : Process) (args : Args) (e : FdEntry)
    (hret : args.Return ≥ 0) (hsame : args.Return = Int.ofNat args.a0)
    (hopen : p.fdTable (intOf args.a0) = some e) :
    sys_dup2 env p args = Outcome.ok p ∧
    (sys_dup2 env p args).proc.fdTable (intOf args.a0) = some e := by
  have h : intOf args.a0 = toInt32 args.Return := by rw [hsame]; rfl
  have heq : sys_dup2 env p args = Outcome.ok p := by
    simp only [sys_dup2, if_pos hret, Process.DupFd, h, if_true]
  exact ⟨heq, by rw [heq]; exact hopen⟩

/-- Witness for C18: fd 3 open on `/out` with `close_on_exec` set, and the event
`dup2(3, 3) = 3`. -/
theorem sys_dup2_same_fd_witness :
    (mkArgs 3 3 3 0 0 0 0).Return ≥ 0 ∧
    (mkArgs 3 3 3 0 0 0 0).Return = Int.ofNat (mkArgs 3 3 3 0 0 0 0).a0 ∧
    (((emptyProcess "/").MapFd 3 "/out").SetCloseExec 3 true).fdTable
      (intOf (mkArgs 3 3 3 0 0 0 0).a0) = some ⟨"/out", true⟩ ∧
    (sys_dup2 sampleEnv (((emptyProcess "/").MapFd 3 "/out").SetCloseExec 3 true)
      (mkArgs 3 3 3 0 0 0 0)).proc.fdTable (intOf (mkArgs 3 3 3 0 0 0 0).a0)
      = some ⟨"/out", true⟩ :=
  ⟨by decide, rfl, rfl,
   (sys_dup2_same_fd sampleEnv (((emptyProcess "/").MapFd 3 "/out").SetCloseExec 3 true)
      (mkArgs 3 3 3 0 0 0 0) ⟨"/out", true⟩ (by decide) rfl rfl).2⟩

/-- Claim C22, evaluated on the code: `kHandlers` has 319 elements
(`SYS_getrandom + 1`), the two guards of `Handle` let `sno = 319` through, and
`Handle` then indexes `kHandlers[319]`, which is not an element of the array. -/
theorem Handle_reads_past_table :
    kHandlers.length = SYS_getrandom + 1 ∧
    ¬ ((319 : Int) < 0) ∧
    ¬ ((319 : Int).toNat > kHandlers.length) ∧
    kHandlers[(319 : Int).toNat]? = none ∧
    Handle sampleEnv sampleTrace 319 (mkArgs 0 0 0 0 0 0 0) = Dispatch.outOfBounds := by
  refine ⟨kHandlers_length, by decide, ?_, ?_, Handle_at_length _ _ _⟩
  · rw [kHandlers_length]; decide
  · rw [kHandlers_getElem?]; decide

/-! ### Pointwise description of the fd-table operations -/

theorem fdTable_mapFd (p : Process) (fd : Int) (target : String) (k : Int) :
    (p.MapFd fd target).fdTable k = if k = fd then some ⟨target, false⟩ else p.fdTable k := rfl

theorem fdTable_setCloseExec (p : Process) (fd : Int) (flag : Bool) (k : Int) :
    (p.SetCloseExec fd flag).fdTable k =
      if k = fd then (p.fdTable fd).map (fun e => ⟨e.target, flag⟩) else p.fdTable k := by
  unfold Process.SetCloseExec
  cases h : p.fdTable fd with
  | none =>
    by_cases hk : k = fd
    · simp [hk, h]
    · simp [hk]
  | some e => simp [setSlot]

theorem fdTable_closeFd (p : Process) (fd : Int) (k : Int) :
    (p.CloseFd fd).fdTable k = if k = fd then none else p.fdTable k := by
  unfold Process.CloseFd
  cases h : p.fdTable fd with
  | none =>
    by_cases hk : k = fd
    · simp [hk, h]
    · simp [hk]
  | some e => simp [setSlot]

theorem fdTable_dupFd (p : Process) (src dst : Int) (e : FdEntry) (k : Int)
    (he : p.fdTable src = some e) (hne : src ≠ dst) :
    (p.DupFd src dst).fdTable k = if k = dst then some ⟨e.target, false⟩ else p.fdTable k := by
  simp [Process.DupFd, hne, he, setSlot]

theorem addPath_nil (path : String) : addPath [] path = [path] := by
  simp [addPath]

/-- The outcome of a successful `open`. -/
theorem sys_open_mapsFd (env : Env) (p : Process) (args : Args) (hret : args.Return ≥ 0) :
    (sys_open env p args).mapsFd p (toInt32 args.Return)
      (normalize (env.ReadString args.PID args.a0) p.cwd) (u64Test args.a1 O_CLOEXEC) := by
  simp only [sys_open, if_pos hret]
  exact mapFd_setCloseExec _ _ _ _

/-- Claim C19 (scenario S1 generalised): for every path `path` (absolute paths
included, for which the cwd plays no role), every descriptor `f >= 0` and every
flags value, from a process state with an empty fd-table and empty effect sets
the events `open(path, flags) = f`, `write(f, ..) = n` with `n >= 0` and
`close(f) = 0` throw nothing and yield `outputs = {normalize(path)}`, empty
inputs and touched sets and an empty fd-table, provided the policy of
`AddOutput(fd)` records the target. -/
theorem open_write_close (env : Env) (p0 : Process) (e1 e2 e3 : Args) (path : String) (f : Nat)
    (hfd : p0.fdTable = fun _ => none)
    (hin : p0.inputs = []) (hout : p0.outputs = []) (htou : p0.touched = [])
    (hpath : env.ReadString e1.PID e1.a0 = path) (hr1 : e1.Return = Int.ofNat f)
    (hw : e2.a0 = f) (hr2 : e2.Return ≥ 0)
    (hc : e3.a0 = f) (hr3 : e3.Return = 0)
    (hrec : env.skipsTarget (normalize path p0.cwd) = false) :
    (sys_open env p0 e1).raised = none ∧
    (sys_write env (sys_open env p0 e1).proc e2).raised = none ∧
    (sys_close env (sys_write env (sys_open env p0 e1).proc e2).proc e3).raised = none ∧
    (sys_close env (sys_write env (sys_open env p0 e1).proc e2).proc e3).proc.outputs
      = [normalize path p0.cwd] ∧
    (sys_close env (sys_write env (sys_open env p0 e1).proc e2).proc e3).proc.inputs = [] ∧
    (sys_close env (sys_write env (sys_open env p0 e1).proc e2).proc e3).proc.touched = [] ∧
    (sys_close env (sys_write env (sys_open env p0 e1).proc e2).proc e3).proc.fdTable
      = fun _ => none := by
  have hr1' : e1.Return ≥ 0 := by rw [hr1]; exact Int.ofNat_nonneg f
  have hr3' : e3.Return ≥ 0 := by rw [hr3]
  have hfd1 : toInt32 e1.Return = intOf f := by rw [hr1]; rfl
  obtain ⟨h1r, h1f, h1o, h1s⟩ := sys_open_mapsFd env p0 e1 hr1'
  rw [hpath, hfd1] at h1f
  rw [hfd1] at h1o
  obtain ⟨-, -, -, h1in, h1out, h1tou, -, -, -⟩ := h1s
  -- the write
  have h2 : sys_write env (sys_open env p0 e1).proc e2
      = Outcome.ok ((sys_open env p0 e1).proc.AddOutput (normalize path p0.cwd)) := by
    simp only [sys_write, if_pos hr2, hw, Process.AddOutputFd, Process.effectTarget, h1f, hrec]
    rfl
  -- the close
  have h3 : sys_close env (sys_write env (sys_open env p0 e1).proc e2).proc e3
      = Outcome.ok (((sys_open env p0 e1).proc.AddOutput (normalize path p0.cwd)).CloseFd
          (intOf f)) := by
    simp only [sys_close, if_pos hr3', hc, h2, Outcome.ok]
  have hclosed : ∀ q : Process, (q.CloseFd (intOf f)).outputs = q.outputs ∧
      (q.CloseFd (intOf f)).inputs = q.inputs ∧ (q.CloseFd (intOf f)).touched = q.touched := by
    intro q
    unfold Process.CloseFd
    split <;> exact ⟨rfl, rfl, rfl⟩
  refine ⟨h1r, by rw [h2]; rfl, by rw [h3]; rfl, ?_, ?_, ?_, ?_⟩
  · rw [h3]
    simp only [Outcome.ok, (hclosed _).1, Process.AddOutput, h1out, hout, addPath_nil]
  · rw [h3]
    simp only [Outcome.ok, (hclosed _).2.1, Process.AddOutput, h1in, hin]
  · rw [h3]
    simp only [Outcome.ok, (hclosed _).2.2, Process.AddOutput, h1tou, htou]
  · rw [h3]
    funext k
    simp only [Outcome.ok, fdTable_closeFd, Process.AddOutput]
    by_cases hk : k = intOf f
    · simp [hk]
    · rw [if_neg hk, h1o k hk, hfd]

/-- Witness for C19: `open("/tmp/a", O_WRONLY|O_CREAT|O_CLOEXEC) = 3`,
`write(3, ..) = 10`, `close(3) = 0` yields `outputs = {"/tmp/a"}` and an empty
fd-table. -/
theorem open_write_close_witness :
    (sys_close sampleEnv (sys_write sampleEnv (sys_open sampleEnv (emptyProcess "/w")
      (mkArgs 3 100 524353 0 0 0 0)).proc (mkArgs 10 3 0 0 0 0 0)).proc
      (mkArgs 0 3 0 0 0 0 0)).proc.outputs = ["/tmp/a"] ∧
    (sys_close sampleEnv (sys_write sampleEnv (sys_open sampleEnv (emptyProcess "/w")
      (mkArgs 3 100 524353 0 0 0 0)).proc (mkArgs 10 3 0 0 0 0 0)).proc
      (mkArgs 0 3 0 0 0 0 0)).proc.fdTable = fun _ => none :=
  ⟨(open_write_close sampleEnv (emptyProcess "/w") (mkArgs 3 100 524353 0 0 0 0)
      (mkArgs 10 3 0 0 0 0 0) (mkArgs 0 3 0 0 0 0 0) "/tmp/a" 3
      rfl rfl rfl rfl rfl rfl rfl (by decide) rfl rfl rfl).2.2.2.1,
   (open_write_close sampleEnv (emptyProcess "/w") (mkArgs 3 100 524353 0 0 0 0)
      (mkArgs 10 3 0 0 0 0 0) (mkArgs 0 3 0 0 0 0 0) "/tmp/a" 3
      rfl rfl rfl rfl rfl rfl rfl (by decide) rfl rfl rfl).2.2.2.2.2.2⟩

theorem ok_proc (p : Process) : (Outcome.ok p).proc = p := rfl

theorem ok_raised (p : Process) : (Outcome.ok p).raised = none := rfl

theorem dupFd_sameButFds (p : Process) (src dst : Int) : (p.DupFd src dst).sameButFds p := by
  unfold Process.DupFd
  split
  · exact sameButFds_refl p
  · split <;> exact sameButFds_refl p

theorem closeFd_sameButFds (p : Process) (fd : Int) : (p.CloseFd fd).sameButFds p := by
  unfold Process.CloseFd
  split <;> exact sameButFds_refl p

/-- The fd form of `AddInput` on an open descriptor whose target is recorded. -/
theorem addInputFd_open (env : Env) (p : Process) (fd : Int) (e : FdEntry)
    (he : p.fdTable fd = some e) (hrec : env.skipsTarget e.target = false) :
    p.AddInputFd env fd = Outcome.ok (p.AddInput e.target) := by
  simp only [Process.AddInputFd, Process.effectTarget, he, hrec]
  rfl

/-- The fd form of `AddOutput` on an open descriptor whose target is recorded. -/
theorem addOutputFd_open (env : Env) (p : Process) (fd : Int) (e : FdEntry)
    (he : p.fdTable fd = some e) (hrec : env.skipsTarget e.target = false) :
    p.AddOutputFd env fd = Outcome.ok (p.AddOutput e.target) := by
  simp only [Process.AddOutputFd, Process.effectTarget, he, hrec]
  rfl

/-- Duplicate `a` to `b`, read from `b`, close `a`: the state that results from a
state whose only descriptor is `a`. -/
theorem dup_read_close_core (env : Env) (p1 : Process) (a b : Int) (target : String)
    (hab : a ≠ b) (h1f : p1.fdTable a = some ⟨target, false⟩)
    (h1o : ∀ k, k ≠ a → p1.fdTable k = none) (hin : p1.inputs = [])
    (hrec : env.skipsTarget target = false) :
    (p1.DupFd a b).AddInputFd env b = Outcome.ok ((p1.DupFd a b).AddInput target) ∧
    (((p1.DupFd a b).AddInput target).CloseFd a).inputs = [target] ∧
    (((p1.DupFd a b).AddInput target).CloseFd a).fdTable
      = fun k => if k = b then some ⟨target, false⟩ else none := by
  have h2g : (p1.DupFd a b).fdTable b = some ⟨target, false⟩ := by
    rw [fdTable_dupFd _ _ _ _ _ h1f hab, if_pos rfl]
  refine ⟨addInputFd_open env _ b ⟨target, false⟩ h2g hrec, ?_, ?_⟩
  · rw [(closeFd_sameButFds _ _).2.2.2.1]
    show addPath (p1.DupFd a b).inputs target = _
    rw [(dupFd_sameButFds _ _ _).2.2.2.1, hin, addPath_nil]
  · funext k
    rw [fdTable_closeFd]
    show (if k = a then none else (p1.DupFd a b).fdTable k) = _
    rw [fdTable_dupFd _ _ _ _ _ h1f hab]
    by_cases hka : k = a
    · have hkb : k ≠ b := by rw [hka]; exact hab
      rw [if_pos hka, if_neg hkb]
    · rw [if_neg hka]
      by_cases hkb : k = b
      · rw [if_pos hkb, if_pos hkb]
      · rw [if_neg hkb, if_neg hkb, h1o k hka]

/-- Claim C20 (scenario S2 generalised): for every cwd, every relative or
absolute path `path` and distinct descriptors `f, g >= 0`, from a process state
with an empty fd-table and empty effect sets the events
`open(path, O_RDONLY) = f`, `dup(f) = g`, `read(g, ..) >= 0`, `close(f) = 0`
throw nothing and yield `inputs = {normalize(cwd, path)}` and
`fd_table = {g -> (normalize(cwd, path), close_on_exec = false)}`, provided the
policy of `AddInput(fd)` records the target. -/
theorem open_dup_read_close (env : Env) (p0 : Process) (e1 e2 e3 e4 : Args) (path : String)
    (f g : Nat)
    (hfd : p0.fdTable = fun _ => none) (hin : p0.inputs = [])
    (hf : f < 2147483648) (hg : g < 2147483648) (hfg : f ≠ g)
    (hpath : env.ReadString e1.PID e1.a0 = path) (hflags : e1.a1 = 0)
    (hr1 : e1.Return = Int.ofNat f)
    (hd : e2.a0 = f) (hr2 : e2.Return = Int.ofNat g)
    (hrd : e3.a0 = g) (hr3 : e3.Return ≥ 0)
    (hc : e4.a0 = f) (hr4 : e4.Return = 0)
    (hrec : env.skipsTarget (normalize path p0.cwd) = false) :
    (sys_open env p0 e1).raised = none ∧
    (sys_dup env (sys_open env p0 e1).proc e2).raised = none ∧
    (sys_read env (sys_dup env (sys_open env p0 e1).proc e2).proc e3).raised = none ∧
    (sys_close env (sys_read env (sys_dup env (sys_open env p0 e1).proc e2).proc e3).proc
      e4).raised = none ∧
    (sys_close env (sys_read env (sys_dup env (sys_open env p0 e1).proc e2).proc e3).proc
      e4).proc.inputs = [normalize path p0.cwd] ∧
    (sys_close env (sys_read env (sys_dup env (sys_open env p0 e1).proc e2).proc e3).proc
      e4).proc.fdTable
      = fun k => if k = Int.ofNat g then some ⟨normalize path p0.cwd, false⟩ else none := by
  have hr1' : e1.Return ≥ 0 := by rw [hr1]; exact Int.ofNat_nonneg f
  have hr2' : e2.Return ≥ 0 := by rw [hr2]; exact Int.ofNat_nonneg g
  have hr4' : e4.Return ≥ 0 := by rw [hr4]
  have hif : intOf f = Int.ofNat f :=
    toInt32_of_range _ (Int.ofNat_nonneg f) (by simp only [Int.ofNat_eq_coe]; omega)
  have hig : intOf g = Int.ofNat g :=
    toInt32_of_range _ (Int.ofNat_nonneg g) (by simp only [Int.ofNat_eq_coe]; omega)
  have hne : intOf f ≠ intOf g := by
    rw [hif, hig]
    simp only [Int.ofNat_eq_coe]
    omega
  have hfd1 : toInt32 e1.Return = intOf f := by rw [hr1]; rfl
  have hfd2 : toInt32 e2.Return = intOf g := by rw [hr2]; rfl
  have hflag : u64Test e1.a1 O_CLOEXEC = false := by rw [hflags]; decide
  obtain ⟨h1r, h1f, h1o, h1s⟩ := sys_open_mapsFd env p0 e1 hr1'
  rw [hpath, hfd1, hflag] at h1f
  rw [hfd1] at h1o
  obtain ⟨-, -, -, h1in, -, -, -, -, -⟩ := h1s
  have h1none : ∀ k, k ≠ intOf f → (sys_open env p0 e1).proc.fdTable k = none := by
    intro k hk
    rw [h1o k hk, hfd]
  obtain ⟨c1, c2, c3⟩ := dup_read_close_core env (sys_open env p0 e1).proc (intOf f) (intOf g)
    (normalize path p0.cwd) hne h1f h1none (h1in.trans hin) hrec
  have h2 : sys_dup env (sys_open env p0 e1).proc e2
      = Outcome.ok ((sys_open env p0 e1).proc.DupFd (intOf f) (intOf g)) := by
    unfold sys_dup
    rw [if_pos hr2', hd, hfd2]
  have h3 : sys_read env (sys_dup env (sys_open env p0 e1).proc e2).proc e3
      = Outcome.ok (((sys_open env p0 e1).proc.DupFd (intOf f) (intOf g)).AddInput
          (normalize path p0.cwd)) := by
    unfold sys_read
    rw [if_pos hr3, hrd, h2, ok_proc]
    exact c1
  have h4 : sys_close env (sys_read env (sys_dup env (sys_open env p0 e1).proc e2).proc
      e3).proc e4
      = Outcome.ok ((((sys_open env p0 e1).proc.DupFd (intOf f) (intOf g)).AddInput
          (normalize path p0.cwd)).CloseFd (intOf f)) := by
    unfold sys_close
    rw [if_pos hr4', hc, h3, ok_proc]
  refine ⟨h1r, by rw [h2, ok_raised], by rw [h3, ok_raised], by rw [h4, ok_raised], ?_, ?_⟩
  · rw [h4, ok_proc]
    exact c2
  · rw [h4, ok_proc, ← hig]
    exact c3

/-- Witness for C20: cwd `/home`, `open("x", O_RDONLY) = 3`, `dup(3) = 4`,
`read(4, ..) = 5`, `close(3) = 0` gives `inputs = {"/home/x"}`. -/
theorem open_dup_read_close_witness :
    (sys_close sampleEnv (sys_read sampleEnv (sys_dup sampleEnv (sys_open sampleEnv
      (emptyProcess "/home") (mkArgs 3 300 0 0 0 0 0)).proc (mkArgs 4 3 0 0 0 0 0)).proc
      (mkArgs 5 4 0 0 0 0 0)).proc (mkArgs 0 3 0 0 0 0 0)).proc.inputs = ["/home/x"] ∧
    (sys_close sampleEnv (sys_read sampleEnv (sys_dup sampleEnv (sys_open sampleEnv
      (emptyProcess "/home") (mkArgs 3 300 0 0 0 0 0)).proc (mkArgs 4 3 0 0 0 0 0)).proc
      (mkArgs 5 4 0 0 0 0 0)).proc (mkArgs 0 3 0 0 0 0 0)).proc.fdTable
      = fun k => if k = Int.ofNat 4 then some ⟨"/home/x", false⟩ else none :=
  ⟨(open_dup_read_close sampleEnv (emptyProcess "/home") (mkArgs 3 300 0 0 0 0 0)
      (mkArgs 4 3 0 0 0 0 0) (mkArgs 5 4 0 0 0 0 0) (mkArgs 0 3 0 0 0 0 0) "x" 3 4
      rfl rfl (by decide) (by decide) (by decide) rfl rfl rfl rfl rfl rfl (by decide) rfl rfl
      rfl).2.2.2.2.1,
   (open_dup_read_close sampleEnv (emptyProcess "/home") (mkArgs 3 300 0 0 0 0 0)
      (mkArgs 4 3 0 0 0 0 0) (mkArgs 5 4 0 0 0 0 0) (mkArgs 0 3 0 0 0 0 0) "x" 3 4
      rfl rfl (by decide) (by decide) (by decide) rfl rfl rfl rfl rfl rfl (by decide) rfl rfl
      rfl).2.2.2.2.2⟩

/-- Claim C21 (pipe and pipe2 close-on-exec): for every process state and every
`pipe2` event with `Return >= 0` whose remote buffer holds the descriptors
`(r, w)`, nothing is thrown and afterwards both `r` and `w` are bound to the same
synthetic pipe target with `close_on_exec = ((a1 & O_CLOEXEC) != 0)`, so that
with `O_CLOEXEC` set the exec transition removes both; for a `pipe` event with
`Return >= 0` both are bound to the pipe target with `close_on_exec = false`. -/
theorem sys_pipe2_close_on_exec (env : Env) (p : Process) (args : Args) (r w : Int)
    (hret : args.Return ≥ 0) (hbuf : env.ReadBuffer args.PID args.a0 = some (r, w)) :
    (sys_pipe2 env p args).raised = none ∧
    (sys_pipe2 env p args).proc.fdTable r
      = some ⟨env.pipeTarget, args.a1 &&& O_CLOEXEC != 0⟩ ∧
    (sys_pipe2 env p args).proc.fdTable w
      = some ⟨env.pipeTarget, args.a1 &&& O_CLOEXEC != 0⟩ ∧
    (args.a1 &&& O_CLOEXEC ≠ 0 →
      (sys_pipe2 env p args).proc.Exec.fdTable r = none ∧
      (sys_pipe2 env p args).proc.Exec.fdTable w = none) ∧
    (sys_pipe env p args).raised = none ∧
    (sys_pipe env p args).proc.fdTable r = some ⟨env.pipeTarget, false⟩ ∧
    (sys_pipe env p args).proc.fdTable w = some ⟨env.pipeTarget, false⟩ := by
  have hb : intTest (intOf args.a1) O_CLOEXEC = (args.a1 &&& O_CLOEXEC != 0) :=
    intTest_intOf _ _ (by decide)
  have h2 : sys_pipe2 env p args = Outcome.ok
      (((p.Pipe env r w).SetCloseExec r (args.a1 &&& O_CLOEXEC != 0)).SetCloseExec w
        (args.a1 &&& O_CLOEXEC != 0)) := by
    simp only [sys_pipe2, hbuf, if_pos hret, hb]
  have h1 : sys_pipe env p args = Outcome.ok (p.Pipe env r w) := by
    simp only [sys_pipe, hbuf, if_pos hret]
  have hr : (sys_pipe2 env p args).proc.fdTable r
      = some ⟨env.pipeTarget, args.a1 &&& O_CLOEXEC != 0⟩ := by
    rw [h2]
    simp only [Outcome.ok, fdTable_setCloseExec, Process.Pipe, fdTable_mapFd]
    by_cases hrw : r = w <;> simp [hrw]
  have hw : (sys_pipe2 env p args).proc.fdTable w
      = some ⟨env.pipeTarget, args.a1 &&& O_CLOEXEC != 0⟩ := by
    rw [h2]
    simp only [Outcome.ok, fdTable_setCloseExec, Process.Pipe, fdTable_mapFd]
    by_cases hrw : w = r <;> simp [hrw]
  refine ⟨by rw [h2]; rfl, hr, hw, ?_, by rw [h1]; rfl, ?_, ?_⟩
  · intro hset
    have hflag : (args.a1 &&& O_CLOEXEC != 0) = true := by simpa using hset
    simp only [Process.Exec, hr, hw, hflag]
    simp
  · rw [h1]
    simp only [Outcome.ok, Process.Pipe, fdTable_mapFd]
    by_cases hrw : r = w <;> simp [hrw]
  · rw [h1]
    simp only [Outcome.ok, Process.Pipe, fdTable_mapFd]
    simp

/-- Witness for C21: `pipe2(buf, O_CLOEXEC) = 0` with `buf = [7, 8]`, then exec:
neither 7 nor 8 remains in the fd-table. -/
theorem sys_pipe2_close_on_exec_witness :
    (mkArgs 0 0 524288 0 0 0 0).Return ≥ 0 ∧
    sampleEnv.ReadBuffer (mkArgs 0 0 524288 0 0 0 0).PID (mkArgs 0 0 524288 0 0 0 0).a0
      = some (7, 8) ∧
    (sys_pipe2 sampleEnv (emptyProcess "/") (mkArgs 0 0 524288 0 0 0 0)).proc.Exec.fdTable 7
      = none ∧
    (sys_pipe2 sampleEnv (emptyProcess "/") (mkArgs 0 0 524288 0 0 0 0)).proc.Exec.fdTable 8
      = none :=
  ⟨by decide, rfl,
   (sys_pipe2_close_on_exec sampleEnv (emptyProcess "/") (mkArgs 0 0 524288 0 0 0 0) 7 8
      (by decide) rfl).2.2.2.1 (by decide)⟩

/-! ### Splitting, canonicalising and rendering paths -/

theorem splitSlash_ne_nil (l : List Char) : splitSlash l ≠ [] := by
  cases l with
  | nil => simp [splitSlash]
  | cons c cs =>
    unfold splitSlash
    split
    · simp
    · split <;> simp

theorem splitSlash_append_slash (xs ys : List Char) :
    splitSlash (xs ++ '/' :: ys) = splitSlash xs ++ splitSlash ys := by
  induction xs with
  | nil => simp [splitSlash]
  | cons c cs ih =>
    by_cases hc : c = '/'
    · simp [splitSlash, hc, ih]
    · have hne := splitSlash_ne_nil cs
      cases hs : splitSlash cs with
      | nil => exact absurd hs hne
      | cons w ws =>
        have e1 : ∀ t, splitSlash (c :: t) =
            match splitSlash t with
            | [] => [[c]]
            | v :: vs => (c :: v) :: vs := by
          intro t
          simp [splitSlash, hc]
        rw [List.cons_append, e1, e1, ih, hs]
        rfl

theorem splitSlash_no_slash (l : List Char) (h : '/' ∉ l) : splitSlash l = [l] := by
  induction l with
  | nil => rfl
  | cons c cs ih =>
    have hc : c ≠ '/' := fun hc => h (by simp [hc])
    have hcs : '/' ∉ cs := fun hm => h (List.mem_cons_of_mem _ hm)
    simp [splitSlash, hc, ih hcs]

theorem mem_splitSlash_no_slash (l : List Char) : ∀ w ∈ splitSlash l, '/' ∉ w := by
  induction l with
  | nil => simp [splitSlash]
  | cons c cs ih =>
    by_cases hc : c = '/'
    · intro w hw
      simp only [splitSlash, hc, if_true, List.mem_cons] at hw
      rcases hw with rfl | hw
      · simp
      · exact ih w hw
    · have hne := splitSlash_ne_nil cs
      cases hs : splitSlash cs with
      | nil => exact absurd hs hne
      | cons v vs =>
        intro w hw
        simp only [splitSlash, if_neg hc, hs, List.mem_cons] at hw
        rw [hs] at ih
        rcases hw with rfl | hw
        · intro hm
          rcases List.mem_cons.mp hm with h1 | h1
          · exact hc h1.symm
          · exact ih v (List.mem_cons_self _ _) h1
        · exact ih w (List.mem_cons_of_mem _ hw)

theorem segments_mk (l : List Char) : segments (String.mk l) = (splitSlash l).map String.mk := rfl

theorem canon_append (a b : List String) : canon (a ++ b) = b.foldl canonStep (canon a) := by
  simp [canon, List.foldl_append]

theorem canonStep_empty (stack : List String) : canonStep stack "" = stack := by
  simp [canonStep]

theorem canonStep_name (stack : List String) (seg : String)
    (h0 : seg ≠ "") (h1 : seg ≠ ".") (h2 : seg ≠ "..") : canonStep stack seg = stack ++ [seg] := by
  simp [canonStep, h0, h1, h2]

/-- Segments of a run of separators followed by a name: the run contributes only
empty segments, so the name is pushed on the stack. -/
theorem foldl_slashes_name (stack : List String) (z name : List Char)
    (hz : ∀ c ∈ z, c = '/') (hname : '/' ∉ name)
    (h0 : String.mk name ≠ "") (h1 : String.mk name ≠ ".") (h2 : String.mk name ≠ "..") :
    ((splitSlash (z ++ name)).map String.mk).foldl canonStep stack
      = stack ++ [String.mk name] := by
  induction z with
  | nil =>
    simp only [List.nil_append, splitSlash_no_slash name hname, List.map, List.foldl]
    exact canonStep_name stack _ h0 h1 h2
  | cons c cs ih =>
    have hc : c = '/' := hz c (List.mem_cons_self _ _)
    have hcs : ∀ c ∈ cs, c = '/' := fun d hd => hz d (List.mem_cons_of_mem _ hd)
    subst hc
    simp only [List.cons_append, splitSlash, if_true, List.map, List.foldl]
    have : canonStep stack (String.mk []) = stack := canonStep_empty stack
    rw [this]
    exact ih hcs

/-- Canonical stack of `xs/`, a run of separators and a name. -/
theorem canon_segments_snoc (xs z name : List Char)
    (hz : ∀ c ∈ z, c = '/') (hname : '/' ∉ name)
    (h0 : String.mk name ≠ "") (h1 : String.mk name ≠ ".") (h2 : String.mk name ≠ "..") :
    canon (segments (String.mk (xs ++ '/' :: (z ++ name))))
      = canon (segments (String.mk xs)) ++ [String.mk name] := by
  rw [segments_mk, splitSlash_append_slash, List.map_append, canon_append, ← segments_mk]
  exact foldl_slashes_name _ z name hz hname h0 h1 h2

/-- Canonical stack of `xs/`: the trailing separator adds nothing. -/
theorem canon_segments_slash (xs : List Char) :
    canon (segments (String.mk (xs ++ ['/']))) = canon (segments (String.mk xs)) := by
  rw [segments_mk, splitSlash_append_slash, List.map_append, canon_append, ← segments_mk]
  simp only [splitSlash, List.map, List.foldl]
  exact canonStep_empty _

/-- Every component of a stack built by `canonStep` from slash-free segments is
non-empty and slash-free. -/
theorem foldl_canonStep_good (segs stack : List String)
    (hsegs : ∀ s ∈ segs, '/' ∉ s.data)
    (hstack : ∀ c ∈ stack, c ≠ "" ∧ '/' ∉ c.data) :
    ∀ c ∈ segs.foldl canonStep stack, c ≠ "" ∧ '/' ∉ c.data := by
  induction segs generalizing stack with
  | nil => simpa using hstack
  | cons s ss ih =>
    simp only [List.foldl]
    apply ih
    · intro t ht
      exact hsegs t (List.mem_cons_of_mem _ ht)
    · intro c hc
      unfold canonStep at hc
      split at hc
      · exact hstack c hc
      · next hne =>
        split at hc
        · exact hstack c (List.mem_of_mem_dropLast hc)
        · rcases List.mem_append.mp hc with h | h
          · exact hstack c h
          · have hcs : c = s := by simpa using h
            subst hcs
            refine ⟨fun h0 => hne (Or.inl h0), hsegs c (List.mem_cons_self _ _)⟩

theorem canon_segments_good (path : String) :
    ∀ c ∈ canon (segments path), c ≠ "" ∧ '/' ∉ c.data := by
  apply foldl_canonStep_good
  · intro s hs
    simp only [segments, List.mem_map] at hs
    obtain ⟨w, hw, rfl⟩ := hs
    exact mem_splitSlash_no_slash _ w hw
  · intro c hc
    simp at hc

theorem render_snoc (comps : List String) (name : String) (hne : comps ≠ []) :
    render (comps ++ [name]) = render comps ++ "/" ++ name := by
  simp [render, hne, List.foldl_append]

/-- A rendered non-empty stack of non-empty slash-free components is not empty
and does not end in a separator. -/
theorem render_last (comps : List String) (hne : comps ≠ [])
    (hgood : ∀ c ∈ comps, c ≠ "" ∧ '/' ∉ c.data) :
    render comps ≠ "" ∧ (render comps).data.getLast? ≠ some '/' := by
  obtain ⟨ys, c, rfl⟩ : ∃ ys c, comps = ys ++ [c] := by
    rcases List.eq_nil_or_concat comps with h | ⟨ys, c, h⟩
    · exact absurd h hne
    · exact ⟨ys, c, by simpa using h⟩
  obtain ⟨hc0, hc1⟩ := hgood c (by simp)
  have hdata : c.data ≠ [] := by
    intro h
    apply hc0
    cases c
    simp_all
  have hrender : (render (ys ++ [c])).data
      = (List.foldl (fun acc c => acc ++ "/" ++ c) "" ys).data ++ '/' :: c.data := by
    simp [render, List.foldl_append, String.data_append]
  constructor
  · intro h
    have : (render (ys ++ [c])).data = [] := by rw [h]
    rw [hrender] at this
    simp at this
  · rw [hrender]
    have hsplit : (List.foldl (fun acc c => acc ++ "/" ++ c) "" ys).data ++ '/' :: c.data
        = ((List.foldl (fun acc c => acc ++ "/" ++ c) "" ys).data ++ ['/']) ++ c.data := by
      simp
    rw [hsplit, List.getLast?_append_of_ne_nil _ hdata]
    intro h
    have hmem : '/' ∈ c.data := List.mem_of_getLast?_eq_some h
    exact hc1 hmem

/-- Appending an ordinary name to a rendered canonical stack renders the stack
with the name pushed. -/
theorem pathAppend_render (comps : List String) (name : String)
    (hgood : ∀ c ∈ comps, c ≠ "" ∧ '/' ∉ c.data)
    (h0 : name ≠ "") (hrel : isAbsolute name = false) :
    pathAppend (render comps) name = render (comps ++ [name]) := by
  by_cases hne : comps = []
  · subst hne
    have h1 : render [] = "/" := rfl
    have h2 : render ([] ++ [name]) = "" ++ "/" ++ name := by simp [render]
    rw [h1, h2]
    simp only [pathAppend, h0, hrel, if_false]
    have : ("/" = "" ∨ "/".data.getLast? = some '/') := Or.inr rfl
    rw [if_pos this]
    rfl
  · obtain ⟨hr0, hr1⟩ := render_last comps hne hgood
    rw [render_snoc comps name hne]
    simp only [pathAppend, h0, hrel, if_false]
    have : ¬ (render comps = "" ∨ (render comps).data.getLast? = some '/') := by
      rintro (h | h)
      · exact hr0 h
      · exact hr1 h
    rw [if_neg this]
    simp

theorem mk_ne_empty (l : List Char) (h : l ≠ []) : String.mk l ≠ "" := by
  intro he
  apply h
  have : (String.mk l).data = "".data := by rw [he]
  exact this

theorem isAbsolute_no_slash (name : List Char) (hname : '/' ∉ name) :
    isAbsolute (String.mk name) = false := by
  cases name with
  | nil => rfl
  | cons c cs =>
    have hc : c ≠ '/' := fun h => hname (by simp [h])
    simp [isAbsolute, hc]

theorem isAbsolute_append (a b : List Char) (ha : a ≠ []) :
    isAbsolute (String.mk (a ++ b)) = isAbsolute (String.mk a) := by
  cases a with
  | nil => exact absurd rfl ha
  | cons c cs => rfl

theorem data_join (base : String) (l : List Char) :
    (base ++ "/" ++ String.mk l) = String.mk (base.data ++ '/' :: l) := by
  apply String.ext
  simp [String.data_append]

/-- Normal form of a path that is a bare name: the name appended to the normal
form of the empty path. -/
theorem normalize_bare_name (base : String) (name : List Char) (hname : '/' ∉ name)
    (h0 : String.mk name ≠ "") (h1 : String.mk name ≠ ".") (h2 : String.mk name ≠ "..") :
    normalize (String.mk name) base
      = pathAppend (normalize "" base) (String.mk name) := by
  have hrel := isAbsolute_no_slash name hname
  have hl : normalize (String.mk name) base
      = render (canon (segments base) ++ [String.mk name]) := by
    unfold normalize
    rw [hrel]
    simp only [Bool.false_eq_true, if_false]
    rw [data_join]
    have := canon_segments_snoc base.data [] name (by simp) hname h0 h1 h2
    rw [List.nil_append] at this
    rw [this]
  have hr : normalize "" base = render (canon (segments base)) := by
    unfold normalize
    have : isAbsolute "" = false := rfl
    rw [this]
    simp only [Bool.false_eq_true, if_false]
    have hj : base ++ "/" ++ "" = String.mk (base.data ++ ['/']) := data_join base []
    rw [hj, canon_segments_slash]
  rw [hl, hr]
  exact (pathAppend_render _ _ (canon_segments_good base) h0 hrel).symm

/-- Normal form of `/name` (with any number of leading separators): the name
appended to the normal form of the root. -/
theorem normalize_root_name (base : String) (z name : List Char)
    (hz : ∀ c ∈ z, c = '/') (hname : '/' ∉ name)
    (h0 : String.mk name ≠ "") (h1 : String.mk name ≠ ".") (h2 : String.mk name ≠ "..") :
    normalize (String.mk ('/' :: (z ++ name))) base
      = pathAppend (normalize "/" base) (String.mk name) := by
  have hrel := isAbsolute_no_slash name hname
  have hl : normalize (String.mk ('/' :: (z ++ name))) base = render ([] ++ [String.mk name]) := by
    unfold normalize
    have habs : isAbsolute (String.mk ('/' :: (z ++ name))) = true := rfl
    rw [habs]
    simp only [if_true]
    have := canon_segments_snoc [] z name hz hname h0 h1 h2
    rw [List.nil_append] at this
    rw [this]
    rfl
  have hr : normalize "/" base = render [] := by
    unfold normalize
    have habs : isAbsolute "/" = true := rfl
    rw [habs]
    rfl
  rw [hl, hr]
  exact (pathAppend_render [] _ (by simp) h0 hrel).symm

/-- Normal form of `A/name` for a non-empty `A` (with any number of separators in
between): the name appended to the normal form of `A`. -/
theorem normalize_dir_name (base : String) (a z name : List Char) (ha : a ≠ [])
    (hz : ∀ c ∈ z, c = '/') (hname : '/' ∉ name)
    (h0 : String.mk name ≠ "") (h1 : String.mk name ≠ ".") (h2 : String.mk name ≠ "..") :
    normalize (String.mk (a ++ '/' :: (z ++ name))) base
      = pathAppend (normalize (String.mk a) base) (String.mk name) := by
  have hrel := isAbsolute_no_slash name hname
  have habs := isAbsolute_append a ('/' :: (z ++ name)) ha
  unfold normalize
  rw [habs]
  by_cases hA : isAbsolute (String.mk a) = true
  · rw [hA]
    simp only [if_true]
    rw [canon_segments_snoc a z name hz hname h0 h1 h2]
    exact (pathAppend_render _ _ (canon_segments_good _) h0 hrel).symm
  · have hA' : isAbsolute (String.mk a) = false := by simpa using hA
    rw [hA']
    simp only [Bool.false_eq_true, if_false]
    rw [data_join, data_join]
    have hassoc : base.data ++ '/' :: (a ++ '/' :: (z ++ name))
        = (base.data ++ '/' :: a) ++ '/' :: (z ++ name) := by simp
    rw [hassoc, canon_segments_snoc _ z name hz hname h0 h1 h2]
    exact (pathAppend_render _ _ (canon_segments_good _) h0 hrel).symm

theorem slashes_cons (z : List Char) (hz : ∀ c ∈ z, c = '/') (hne : z ≠ []) :
    ∃ t, z = '/' :: t ∧ ∀ c ∈ t, c = '/' := by
  cases z with
  | nil => exact absurd rfl hne
  | cons c t =>
    have hc : c = '/' := hz c (List.mem_cons_self _ _)
    exact ⟨t, by rw [hc], fun d hd => hz d (List.mem_cons_of_mem _ hd)⟩

/-- For a path whose final component is an ordinary name, appending the file
name to the normal form of the parent gives the normal form of the path. -/
theorem parent_filename_normalize (path base : String)
    (h0 : filename path ≠ "") (h1 : filename path ≠ ".") (h2 : filename path ≠ "..")
    (h3 : filename path ≠ "/") :
    pathAppend (normalize (parent_path path) base) (filename path) = normalize path base := by
  cases path with
  | mk data =>
  have hdata : data ≠ [] := fun h => h0 (by unfold filename; rw [if_pos h])
  have hall : ¬ (data.all (fun c => c == '/') = true) :=
    fun h => h3 (by unfold filename; rw [if_neg hdata, if_pos h])
  have hfile : filename (String.mk data)
      = if (data.reverse.takeWhile (fun c => c != '/')).reverse = [] then "."
        else String.mk (data.reverse.takeWhile (fun c => c != '/')).reverse := by
    unfold filename
    rw [if_neg hdata, if_neg hall]
  have hsplit : data = (data.reverse.dropWhile (fun c => c != '/')).reverse
      ++ (data.reverse.takeWhile (fun c => c != '/')).reverse := by
    have h : data.reverse.takeWhile (fun c => c != '/')
        ++ data.reverse.dropWhile (fun c => c != '/') = data.reverse :=
      List.takeWhile_append_dropWhile _ _
    calc data = data.reverse.reverse := (List.reverse_reverse data).symm
      _ = (data.reverse.takeWhile (fun c => c != '/')
            ++ data.reverse.dropWhile (fun c => c != '/')).reverse := by rw [h]
      _ = _ := List.reverse_append _ _
  have hnoslash : '/' ∉ (data.reverse.takeWhile (fun c => c != '/')).reverse := by
    intro hm
    have hm' : '/' ∈ data.reverse.takeWhile (fun c => c != '/') := by simpa using hm
    have := List.mem_takeWhile_imp hm'
    simp at this
  have hhead := List.head?_dropWhile_not (fun c => c != '/') data.reverse
  have hparent : parent_path (String.mk data)
      = if data.reverse.dropWhile (fun c => c != '/') = [] then ""
        else if (data.reverse.dropWhile (fun c => c != '/')).dropWhile (fun c => c == '/') = []
          then "/"
        else String.mk ((data.reverse.dropWhile (fun c => c != '/')).dropWhile
          (fun c => c == '/')).reverse := by
    unfold parent_path
    simp only []
    split
    · rfl
    · split
      · rfl
      · rfl
  generalize hn : (data.reverse.takeWhile (fun c => c != '/')).reverse = name at hfile hsplit hnoslash
  generalize hu : data.reverse.dropWhile (fun c => c != '/') = upto at hsplit hhead hparent
  have hname : name ≠ [] := by
    intro h
    rw [hfile, if_pos h] at h1
    exact h1 rfl
  rw [if_neg hname] at hfile
  rw [hfile] at h0 h1 h2
  rw [hfile, hparent]
  cases upto with
  | nil =>
    rw [if_pos rfl]
    have hd : data = name := by simpa using hsplit
    rw [hd]
    exact (normalize_bare_name base name hnoslash h0 h1 h2).symm
  | cons c rest =>
    have hc : c = '/' := by
      simp only [List.head?_cons] at hhead
      simpa using hhead
    subst hc
    rw [if_neg (by simp)]
    have hdrop : List.dropWhile (fun c => c == '/') ('/' :: rest)
        = List.dropWhile (fun c => c == '/') rest := by
      simp [List.dropWhile]
    rw [hdrop]
    have hrest : rest = rest.takeWhile (fun c => c == '/') ++ rest.dropWhile (fun c => c == '/') :=
      (List.takeWhile_append_dropWhile _ rest).symm
    have hzall : ∀ d ∈ (rest.takeWhile (fun c => c == '/')).reverse ++ ['/'], d = '/' := by
      intro d hd
      rcases List.mem_append.mp hd with h | h
      · have h' : d ∈ rest.takeWhile (fun c => c == '/') := by simpa using h
        have := List.mem_takeWhile_imp h'
        simpa using this
      · simpa using h
    obtain ⟨z, hzeq, hz⟩ := slashes_cons _ hzall (by simp)
    have hdata2 : data = (rest.dropWhile (fun c => c == '/')).reverse ++ '/' :: (z ++ name) := by
      rw [hsplit]
      have : ('/' :: rest).reverse
          = (rest.dropWhile (fun c => c == '/')).reverse
            ++ ((rest.takeWhile (fun c => c == '/')).reverse ++ ['/']) := by
        rw [List.reverse_cons]
        conv_lhs => rw [hrest]
        rw [List.reverse_append, List.append_assoc]
      rw [this, hzeq]
      simp
    generalize hs : rest.dropWhile (fun c => c == '/') = stripped at hdata2
    by_cases hst : stripped = []
    · rw [if_pos hst]
      rw [hdata2, hst]
      exact (normalize_root_name base z name hz hnoslash h0 h1 h2).symm
    · rw [if_neg hst]
      have hA : stripped.reverse ≠ [] := by simpa using hst
      rw [hdata2]
      exact (normalize_dir_name base stripped.reverse z name hA hz hnoslash h0 h1 h2).symm

/-- No component of a stack built by `canonStep` is `.` or `..`. -/
theorem foldl_canonStep_no_dots (segs stack : List String)
    (hstack : ∀ c ∈ stack, c ≠ "." ∧ c ≠ "..") :
    ∀ c ∈ segs.foldl canonStep stack, c ≠ "." ∧ c ≠ ".." := by
  induction segs generalizing stack with
  | nil => simpa using hstack
  | cons s ss ih =>
    simp only [List.foldl]
    apply ih
    intro c hc
    unfold canonStep at hc
    split at hc
    · exact hstack c hc
    · next hne =>
      split at hc
      · exact hstack c (List.mem_of_mem_dropLast hc)
      · next hdd =>
        rcases List.mem_append.mp hc with h | h
        · exact hstack c h
        · have hcs : c = s := by simpa using h
          subst hcs
          exact ⟨fun h1 => hne (Or.inr h1), hdd⟩

theorem canon_segments_no_dots (path : String) :
    ∀ c ∈ canon (segments path), c ≠ "." ∧ c ≠ ".." :=
  foldl_canonStep_no_dots _ [] (by simp)

/-- Splitting and canonicalising a rendered canonical stack gives the stack
back. -/
theorem canon_segments_render (comps : List String)
    (hgood : ∀ c ∈ comps, c ≠ "" ∧ '/' ∉ c.data) (hdots : ∀ c ∈ comps, c ≠ "." ∧ c ≠ "..") :
    canon (segments (render comps)) = comps := by
  induction comps using List.reverseRecOn with
  | nil => rfl
  | append_singleton ys c ih =>
    have hg : ∀ d ∈ ys, d ≠ "" ∧ '/' ∉ d.data := fun d hd => hgood d (by simp [hd])
    have hd : ∀ d ∈ ys, d ≠ "." ∧ d ≠ ".." := fun d hd => hdots d (by simp [hd])
    obtain ⟨hc0, hc1⟩ := hgood c (by simp)
    obtain ⟨hc2, hc3⟩ := hdots c (by simp)
    have hmk : String.mk c.data = c := rfl
    by_cases hne : ys = []
    · subst hne
      have hr : render ([] ++ [c]) = String.mk ([] ++ '/' :: ([] ++ c.data)) := by
        apply String.ext
        simp [render, String.data_append]
      rw [hr, canon_segments_snoc [] [] c.data (by simp) hc1 hc0 hc2 hc3]
      rfl
    · have hr : render (ys ++ [c]) = String.mk ((render ys).data ++ '/' :: ([] ++ c.data)) := by
        rw [render_snoc ys c hne]
        apply String.ext
        simp [String.data_append]
      rw [hr, canon_segments_snoc (render ys).data [] c.data (by simp) hc1 hc0 hc2 hc3]
      have hmk2 : String.mk (render ys).data = render ys := rfl
      rw [hmk2, ih hg hd]

/-- The normal form of the empty path is the canonical form of the base. -/
theorem normalize_empty (base : String) :
    normalize "" base = render (canon (segments base)) := by
  unfold normalize
  have : isAbsolute "" = false := rfl
  rw [this]
  simp only [Bool.false_eq_true, if_false]
  have hj : base ++ "/" ++ "" = String.mk (base.data ++ ['/']) := data_join base []
  rw [hj, canon_segments_slash]

/-- A rendered stack is an absolute path. -/
theorem isAbsolute_render (comps : List String) : isAbsolute (render comps) = true := by
  induction comps using List.reverseRecOn with
  | nil => rfl
  | append_singleton ys c ih =>
    by_cases hne : ys = []
    · subst hne
      simp [render, isAbsolute, String.data_append]
    · rw [render_snoc ys c hne]
      have hd : (render ys ++ "/" ++ c).data = (render ys).data ++ ('/' :: c.data) := by
        simp [String.data_append]
      unfold isAbsolute at ih ⊢
      rw [hd]
      cases hr : (render ys).data with
      | nil => rw [hr] at ih; simp at ih
      | cons a l => rw [hr] at ih; simpa using ih

theorem normalize_of_absolute (path base : String) (h : isAbsolute path = true) :
    normalize path base = render (canon (segments path)) := by
  unfold normalize
  rw [h]
  simp only [if_true]

/-- Normalising a normalised path is the identity. -/
theorem normalize_normalize (path base base2 : String) :
    normalize (normalize path base) base2 = normalize path base := by
  have habs : isAbsolute (normalize path base) = true := isAbsolute_render _
  rw [normalize_of_absolute _ base2 habs]
  unfold normalize
  rw [canon_segments_render _ (canon_segments_good _) (canon_segments_no_dots _)]

/-- The empty path resolved against a normalised directory is that directory. -/
theorem normalize_empty_normalized (path base : String) :
    normalize "" (normalize path base) = normalize path base := by
  rw [normalize_empty]
  unfold normalize
  rw [canon_segments_render _ (canon_segments_good _) (canon_segments_no_dots _)]

/-- Claim C23 (getxattr agrees with lgetxattr on ordinary paths): for every
process state and every raw path string whose final component is a non-empty
name other than `.` and `..` (so the path does not end in a separator and is not
the root), the path `getxattr` records, the file name appended to the normalised
parent, equals the path `lgetxattr` records, the normalised raw path; hence for
any return value the two handlers have the same outcome. -/
theorem sys_getxattr_eq_lgetxattr (env : Env) (p : Process) (args : Args)
    (h0 : filename (env.ReadString args.PID args.a0) ≠ "")
    (h1 : filename (env.ReadString args.PID args.a0) ≠ ".")
    (h2 : filename (env.ReadString args.PID args.a0) ≠ "..")
    (h3 : filename (env.ReadString args.PID args.a0) ≠ "/") :
    pathAppend (p.Normalise (parent_path (env.ReadString args.PID args.a0)))
        (filename (env.ReadString args.PID args.a0))
      = p.Normalise (env.ReadString args.PID args.a0) ∧
    sys_getxattr env p args = sys_lgetxattr env p args := by
  have h := parent_filename_normalize (env.ReadString args.PID args.a0) p.cwd h0 h1 h2 h3
  refine ⟨h, ?_⟩
  unfold sys_getxattr sys_lgetxattr Process.Normalise
  simp only []
  rw [h]

/-- Witness for C23: cwd `/w` and the raw path `sub/../f`: both handlers record
the input `/w/f`. -/
theorem sys_getxattr_eq_lgetxattr_witness :
    filename (sampleEnv.ReadString 42 200) = "f" ∧
    sys_getxattr sampleEnv (emptyProcess "/w") (mkArgs 0 200 0 0 0 0 0)
      = sys_lgetxattr sampleEnv (emptyProcess "/w") (mkArgs 0 200 0 0 0 0 0) ∧
    (sys_getxattr sampleEnv (emptyProcess "/w") (mkArgs 0 200 0 0 0 0 0)).proc.inputs
      = ["/w/f"] :=
  ⟨by decide,
   (sys_getxattr_eq_lgetxattr sampleEnv (emptyProcess "/w") (mkArgs 0 200 0 0 0 0 0)
      (by decide) (by decide) (by decide) (by decide)).2,
   rfl⟩

/-- Claim C17, counterexample: with cwd `/w`, an `open` whose path string cannot
be read (the read yields the empty string) and whose return value is 3 maps fd
3, to the cwd, and a `chdir` of that kind succeeds in setting the cwd. -/
theorem sys_open_empty_path_maps_fd :
    sampleEnv.ReadString 42 999 = "" ∧
    (sys_open sampleEnv (emptyProcess "/w") (mkArgs 3 999 0 0 0 0 0)).proc.fdTable 3
      = some ⟨"/w", false⟩ ∧
    (emptyProcess "/w").fdTable 3 = none ∧
    (sys_stat sampleEnv (emptyProcess "/w") (mkArgs 0 999 0 0 0 0 0)).proc.touched = ["/w"] := by
  refine ⟨rfl, rfl, rfl, rfl⟩

theorem pathAppend_empty (lhs : String) : pathAppend lhs "" = lhs := by
  simp [pathAppend]

/-- Claim C17, amended: a failed string read is not treated as a failed syscall.
When the read of the path argument yields the empty string and `Return >= 0`,
every path-taking handler treats the empty string as a relative path, which
resolves to the base directory itself (`normalize("")`, the cwd in normal form;
for the at-variants the directory the dirfd resolves to), and applies its usual
effect to it: `open`, `creat` and `openat` map fd `Return` to it, `stat`,
`lstat`, `access` and `newfstatat` touch it, `chdir` makes it the cwd, `mkdir`,
`mkdirat` and `utime` record it as output, `rmdir`, `unlink` and `unlinkat`
remove it, `readlink`, `readlinkat`, `faccessat`, `getxattr`, `lgetxattr` and
`llistxattr` record it as input, `rename` and `link` record the pair of it with
itself, and only `symlink` records nothing (self-loop).  None of the handlers
resolved against the cwd throws. -/
theorem empty_path_resolves_to_base (env : Env) (p : Process) (args : Args)
    (hret : args.Return ≥ 0) :
    (env.ReadString args.PID args.a0 = "" →
      (sys_open env p args).mapsFd p (toInt32 args.Return) (normalize "" p.cwd)
        (args.a1 &&& O_CLOEXEC != 0) ∧
      (sys_creat env p args).mapsFd p (toInt32 args.Return) (normalize "" p.cwd)
        (args.a1 &&& O_CLOEXEC != 0) ∧
      sys_stat env p args = Outcome.ok (p.AddTouched (normalize "" p.cwd)) ∧
      sys_lstat env p args = Outcome.ok (p.AddTouched (normalize "" p.cwd)) ∧
      sys_access env p args = Outcome.ok (p.AddTouched (normalize "" p.cwd)) ∧
      sys_chdir env p args = Outcome.ok (p.SetCwd (normalize "" p.cwd)) ∧
      sys_mkdir env p args = Outcome.ok (p.AddOutput (normalize "" p.cwd)) ∧
      sys_utime env p args = Outcome.ok (p.AddOutput (normalize "" p.cwd)) ∧
      sys_rmdir env p args = Outcome.ok (p.Remove (normalize "" p.cwd)) ∧
      sys_unlink env p args = Outcome.ok (p.Remove (normalize "" p.cwd)) ∧
      sys_readlink env p args = Outcome.ok (p.AddInput (normalize "" p.cwd)) ∧
      sys_getxattr env p args = Outcome.ok (p.AddInput (normalize "" p.cwd)) ∧
      sys_lgetxattr env p args = Outcome.ok (p.AddInput (normalize "" p.cwd)) ∧
      sys_llistxattr env p args = Outcome.ok (p.AddInput (normalize "" p.cwd)) ∧
      (env.ReadString args.PID args.a1 = "" →
        sys_rename env p args
          = Outcome.ok (p.Rename (normalize "" p.cwd) (normalize "" p.cwd)) ∧
        sys_link env p args
          = Outcome.ok (p.Link (normalize "" p.cwd) (normalize "" p.cwd)) ∧
        sys_symlink env p args = Outcome.ok p)) ∧
    (env.ReadString args.PID args.a1 = "" →
      ∀ base, p.NormaliseAt (intOf args.a0) "" = Except.ok base →
        (sys_openat env p args).mapsFd p (toInt32 args.Return) base
          (args.a2 &&& O_CLOEXEC != 0) ∧
        sys_mkdirat env p args = Outcome.ok (p.AddOutput base) ∧
        sys_newfstatat env p args = Outcome.ok (p.AddTouched base) ∧
        sys_unlinkat env p args = Outcome.ok (p.Remove base) ∧
        sys_readlinkat env p args = Outcome.ok (p.AddInput base) ∧
        sys_faccessat env p args = Outcome.ok (p.AddInput base) ∧
        (env.ReadString args.PID args.a3 = "" →
          ∀ base2, p.NormaliseAt (intOf args.a2) "" = Except.ok base2 →
            sys_renameat env p args = Outcome.ok (p.Rename base base2) ∧
            sys_linkat env p args = Outcome.ok (p.Link base base2))) ∧
    p.NormaliseAt AT_FDCWD "" = Except.ok (normalize "" p.cwd) ∧
    (∀ path base, p.cwd = normalize path base → normalize "" p.cwd = p.cwd) := by
  rw [← u64Test_eq args.a1 O_CLOEXEC (by decide), ← u64Test_eq args.a2 O_CLOEXEC (by decide)]
  have hpp : parent_path "" = "" := rfl
  have hfn : filename "" = "" := rfl
  refine ⟨?_, ?_, normaliseAt_fdcwd p "", ?_⟩
  · intro h0
    refine ⟨?_, ?_, ?_, ?_, ?_, ?_, ?_, ?_, ?_, ?_, ?_, ?_, ?_, ?_, ?_⟩
    · have := sys_open_mapsFd env p args hret
      rw [h0] at this
      exact this
    · simp only [sys_creat, if_pos hret, h0, Process.Normalise]
      exact mapFd_setCloseExec _ _ _ _
    · simp only [sys_stat, if_pos hret, h0, Process.Normalise]
    · simp only [sys_lstat, if_pos hret, h0, Process.Normalise]
    · simp only [sys_access, if_pos hret, h0, Process.Normalise]
    · simp only [sys_chdir, if_pos hret, h0, Process.Normalise]
    · simp only [sys_mkdir, if_pos hret, h0, Process.Normalise]
    · simp only [sys_utime, if_pos hret, h0, Process.Normalise]
    · simp only [sys_rmdir, if_pos hret, h0, Process.Normalise]
    · simp only [sys_unlink, if_pos hret, h0, Process.Normalise]
    · simp only [sys_readlink, if_pos hret, h0, Process.Normalise]
    · simp only [sys_getxattr, if_pos hret, h0, Process.Normalise, hpp, hfn, pathAppend_empty]
    · simp only [sys_lgetxattr, if_pos hret, h0, Process.Normalise]
    · simp only [sys_llistxattr, if_pos hret, h0, Process.Normalise]
    · intro h1
      refine ⟨?_, ?_, ?_⟩
      · simp only [sys_rename, if_pos hret, h0, h1, Process.Normalise]
      · simp only [sys_link, if_pos hret, h0, h1, Process.Normalise, hpp, hfn,
          pathAppend_empty]
      · simp only [sys_symlink, if_pos hret, h0, h1, Process.Normalise, Process.NormaliseIn,
          hpp, hfn, pathAppend_empty, normalize_empty_normalized, ne_eq, not_true_eq_false,
          if_false]
  · intro h1 base hb
    refine ⟨?_, ?_, ?_, ?_, ?_, ?_, ?_⟩
    · simp only [sys_openat, h1, hb, if_pos hret]
      exact mapFd_setCloseExec _ _ _ _
    · simp only [sys_mkdirat, h1, hb, if_pos hret]
    · simp only [sys_newfstatat, h1, hb, if_pos hret]
    · simp only [sys_unlinkat, h1, hb, if_pos hret]
    · simp only [sys_readlinkat, h1, hb, if_pos hret]
    · simp only [sys_faccessat, h1, hb, if_pos hret]
    · intro h3 base2 hb2
      refine ⟨?_, ?_⟩
      · simp only [sys_renameat, h1, h3, hb, hb2, if_pos hret]
      · simp only [sys_linkat, h1, h3, hb, hb2, if_pos hret, hpp, hfn, pathAppend_empty]
  · intro path base hc
    rw [hc]
    exact normalize_empty_normalized path base

/-- Witness for C17 as amended: with cwd `/w`, `chdir` with an unreadable path and
return value 0 sets the cwd to `/w`, and `open` of that kind with return value 3
maps fd 3 to `/w`. -/
theorem empty_path_resolves_to_base_witness :
    (mkArgs 3 999 0 0 0 0 0).Return ≥ 0 ∧
    sampleEnv.ReadString (mkArgs 3 999 0 0 0 0 0).PID (mkArgs 3 999 0 0 0 0 0).a0 = "" ∧
    (sys_open sampleEnv (emptyProcess "/w") (mkArgs 3 999 0 0 0 0 0)).mapsFd
      (emptyProcess "/w") 3 "/w" false :=
  ⟨by decide, rfl,
   ((empty_path_resolves_to_base sampleEnv (emptyProcess "/w") (mkArgs 3 999 0 0 0 0 0)
      (by decide)).1 rfl).1⟩

end Mkcheck
